import Mathlib

/-!
Verification of the spreadsheet-to-SQL ingestion pipeline
(`Carga_Datos_Recaudo`): a shallow embedding, in Lean 4, of the
type-inference, fuzzy column-mapping, data-validation and
duplicate-filtering components, together with theorems settling the
frozen claims about them.

Conventions of the embedding:
* Machine strings are Lean `String`s; cell values are an explicit
  variant type (`CellVal`).  Python `\d` / `[a-z0-9]` character classes
  are modelled over ASCII.
* Scores that the source computes in Python floats are modelled as
  exact rationals (`ℚ`); at every comparison the source performs
  (`>= 0.6`, `>= 70`, `>= 85`, `<= 0.1`) the float and rational
  computations agree for all realistic input sizes, so the rational
  model is faithful.
* External collaborators (the `fuzzywuzzy` library, the database
  connection, `pandas.to_datetime`, the wall clock) are modelled as
  explicit parameters (function-valued records), exactly as the source
  receives them through its constructors.
-/

namespace Recaudo

/-! ## Type inferencer (src/excel_processor.py)

`DataType` embeds the `DataType` enum.  In the source the member
`UNKNOWN = "NVARCHAR"` shares its value with `STRING = "NVARCHAR"`, so
Python's `Enum` makes `UNKNOWN` an alias of `STRING`; the enum has six
canonical members, embedded here. -/

inductive DataType where
  | STRING
  | INTEGER
  | DECIMAL
  | BOOLEAN
  | DATE
  | DATETIME
deriving DecidableEq, Repr

/-- The SQL type string attached to each enum member (`DataType.value`). -/
def DataType.value : DataType → String
  | .STRING => "NVARCHAR"
  | .INTEGER => "INT"
  | .DECIMAL => "DECIMAL"
  | .BOOLEAN => "BIT"
  | .DATE => "DATE"
  | .DATETIME => "DATETIME2"

/-- ASCII decimal digit, the model of `\d` in the source's regexes. -/
def isDig (c : Char) : Bool := c.isDigit

/-- The date separators `SEP` of the source's date regexes. -/
def isSepChar (c : Char) : Bool := c = '/' || c = '-'

/-- Python `\s` / `str.strip` whitespace. -/
def isWsChar (c : Char) : Bool :=
  c = ' ' || c = '\t' || c = '\n' || c = '\r' || c = '\x0b' || c = '\x0c'

/-- Model of Python `str.strip()`. -/
def pyStrip (s : String) : String :=
  String.mk (((s.data.dropWhile isWsChar).reverse.dropWhile isWsChar).reverse)

/-- Model of Python `str.lower()` (ASCII case folding plus the accented
i appearing in the source's Spanish literals). -/
def pyLowerChar (c : Char) : Char :=
  if 'A' ≤ c ∧ c ≤ 'Z' then Char.ofNat (c.toNat + 32)
  else if c = 'Í' then 'í' else c

/-- Model of Python `str.lower()`. -/
def pyLower (s : String) : String := String.mk (s.data.map pyLowerChar)

/-- Number of leading digits of a character list. -/
def digCount (l : List Char) : Nat := (l.takeWhile isDig).length

/-- The character list with its leading digits removed. -/
def digRest (l : List Char) : List Char := l.dropWhile isDig

/-- The boolean literal set of the type inferencer
(`ExcelProcessor.boolean_values`): the union of the configured
true-values and false-values. -/
def booleanValues : List String :=
  ["true", "1", "yes", "si", "verdadero", "sí", "false", "0", "no", "falso"]

/-- Matcher for the date regex `^\d{1,2}SEP\d{1,2}SEP\d{2,4}$`.
Digits and separators are disjoint character classes and the pattern is
anchored at both ends, so the greedy scan below is equivalent to the
backtracking regex. -/
def isDateA (l : List Char) : Bool :=
  decide (1 ≤ digCount l) && decide (digCount l ≤ 2) &&
  match digRest l with
  | c1 :: r2 =>
    isSepChar c1 &&
    (decide (1 ≤ digCount r2) && decide (digCount r2 ≤ 2) &&
     match digRest r2 with
     | c2 :: r4 =>
       isSepChar c2 &&
       (decide (2 ≤ digCount r4) && decide (digCount r4 ≤ 4) && (digRest r4).isEmpty)
     | [] => false)
  | [] => false

/-- Matcher for the date regex `^\d{4}SEP\d{1,2}SEP\d{1,2}$`. -/
def isDateB (l : List Char) : Bool :=
  decide (digCount l = 4) &&
  match digRest l with
  | c1 :: r2 =>
    isSepChar c1 &&
    (decide (1 ≤ digCount r2) && decide (digCount r2 ≤ 2) &&
     match digRest r2 with
     | c2 :: r4 =>
       isSepChar c2 &&
       (decide (1 ≤ digCount r4) && decide (digCount r4 ≤ 2) && (digRest r4).isEmpty)
     | [] => false)
  | [] => false

/-- Matcher for the optional trailing `(\s*(AM|PM))?$` of the datetime
regex. -/
def isAmPmTail (l : List Char) : Bool :=
  match l with
  | [] => true
  | _ =>
    match l.dropWhile isWsChar with
    | ['A', 'M'] => true
    | ['P', 'M'] => true
    | _ => false

/-- Matcher for the optional `(:\d{2})?` seconds group followed by the
AM/PM tail. -/
def isSecTail (l : List Char) : Bool :=
  match l with
  | [] => true
  | c :: r =>
    if c = ':' then decide (digCount r = 2) && isAmPmTail (digRest r)
    else isAmPmTail (c :: r)

/-- Matcher for the time part `\d{1,2}:\d{2}(:\d{2})?(\s*(AM|PM))?$`. -/
def isTimePart (l : List Char) : Bool :=
  decide (1 ≤ digCount l) && decide (digCount l ≤ 2) &&
  match digRest l with
  | c :: r => decide (c = ':') && decide (digCount r = 2) && isSecTail (digRest r)
  | [] => false

/-- Matcher for the datetime regex
`^\d{1,2}SEP\d{1,2}SEP\d{2,4}\s+\d{1,2}:\d{2}(:\d{2})?(\s*(AM|PM))?$`. -/
def isDatetimeA (l : List Char) : Bool :=
  decide (1 ≤ digCount l) && decide (digCount l ≤ 2) &&
  match digRest l with
  | c1 :: r2 =>
    isSepChar c1 &&
    (decide (1 ≤ digCount r2) && decide (digCount r2 ≤ 2) &&
     match digRest r2 with
     | c2 :: r4 =>
       isSepChar c2 &&
       (decide (2 ≤ digCount r4) && decide (digCount r4 ≤ 4) &&
        (let r5 := digRest r4
         decide (1 ≤ (r5.takeWhile isWsChar).length) &&
         isTimePart (r5.dropWhile isWsChar)))
     | [] => false)
  | [] => false

/-- The date test of the inferencer: either date regex on the value. -/
def isDateStr (s : String) : Bool := isDateA s.data || isDateB s.data

/-- The datetime test of the inferencer. -/
def isDatetimeStr (s : String) : Bool := isDatetimeA s.data

/-- Matcher for `^-?\d+$` applied to `value.replace(',', '')`. -/
def isIntStr (s : String) : Bool :=
  let l := s.data.filter (fun c => c ≠ ',')
  match l with
  | '-' :: r => !r.isEmpty && r.all isDig
  | _ => !l.isEmpty && l.all isDig

/-- Matcher for `^-?\d+\.\d+$` applied to `value.replace(',', '')`. -/
def isDecPlain (s : String) : Bool :=
  let l := s.data.filter (fun c => c ≠ ',')
  let l := match l with | '-' :: r => r | l => l
  decide (1 ≤ digCount l) &&
  match digRest l with
  | '.' :: r => decide (1 ≤ digCount r) && (digRest r).isEmpty
  | _ => false

/-- Matcher for the grouped tail `(,\d{3})*(\.\d+)?$` of the
thousands-separated decimal regex, with explicit fuel so that the
recursion is structural (each iteration consumes at least one
character, so `l.length` fuel always suffices). -/
def decGroupsF : Nat → List Char → Bool
  | _, [] => true
  | fuel + 1, ',' :: r => decide (digCount r = 3) && decGroupsF fuel (digRest r)
  | _, '.' :: r => decide (1 ≤ digCount r) && (digRest r).isEmpty
  | 0, _ => false
  | _, _ => false

/-- Matcher for the grouped tail `(,\d{3})*(\.\d+)?$`. -/
def decGroups (l : List Char) : Bool := decGroupsF l.length l

/-- Matcher for `^-?\d{1,3}(,\d{3})*(\.\d+)?$` applied to the raw value. -/
def isDecGrouped (s : String) : Bool :=
  let l := match s.data with | '-' :: r => r | l => l
  decide (1 ≤ digCount l) && decide (digCount l ≤ 3) && decGroups (digRest l)

/-- The decimal test of the inferencer (either decimal regex). -/
def isDecStr (s : String) : Bool := isDecPlain s || isDecGrouped s

/-- Per-value classifier of `ExcelProcessor.detect_column_types`: the
body of the `for value in string_series` loop, which strips the value
and tests the boolean literal set, then the date regexes, the datetime
regex, the integer regex and the decimal regexes, in the source's
order. -/
def classifyValue (v : String) : DataType :=
  let s := pyStrip v
  if booleanValues.contains (pyLower s) then .BOOLEAN
  else if isDateStr s then .DATE
  else if isDatetimeStr s then .DATETIME
  else if isIntStr s then .INTEGER
  else if isDecStr s then .DECIMAL
  else .STRING

/-- Classifier in the priority order stated by the spec (boolean, then
datetime, then date, then integer, then decimal, else string).
Modelled from the spec's words for the refinement claim C9; to be
compared with `classifyValue`, which follows the source. -/
def specClassifyValue (v : String) : DataType :=
  let s := pyStrip v
  if booleanValues.contains (pyLower s) then .BOOLEAN
  else if isDatetimeStr s then .DATETIME
  else if isDateStr s then .DATE
  else if isIntStr s then .INTEGER
  else if isDecStr s then .DECIMAL
  else .STRING

/-- `max(percentages, key=...)` over the counts dict in its insertion
order (INTEGER, DECIMAL, DATE, DATETIME, BOOLEAN, STRING): Python's
`max` keeps the first of several maxima, so a later entry replaces the
current best only when strictly greater.  Comparing raw counts is
equivalent to comparing the percentages, which share the denominator. -/
def pickMaxType (cI cD cDa cDt cB cS : Nat) : DataType × Nat :=
  let p := (DataType.INTEGER, cI)
  let p := if cD > p.2 then (DataType.DECIMAL, cD) else p
  let p := if cDa > p.2 then (DataType.DATE, cDa) else p
  let p := if cDt > p.2 then (DataType.DATETIME, cDt) else p
  let p := if cB > p.2 then (DataType.BOOLEAN, cB) else p
  if cS > p.2 then (DataType.STRING, cS) else p

/-- Per-column body of `ExcelProcessor.detect_column_types`: drop nulls
(`series.dropna()`; a cell is `none` when null), classify every value,
tally per type, and keep the winning bucket when it covers at least 60%
of the non-null values, else fall back to STRING.  `5 * count ≥ 3 * n`
is the exact form of `count / n >= 0.6`. -/
def detectColumnType (col : List (Option String)) : DataType :=
  let vals := col.filterMap id
  if vals.isEmpty then .STRING
  else
    let types := vals.map classifyValue
    let n := types.length
    let best := pickMaxType (types.count .INTEGER) (types.count .DECIMAL)
      (types.count .DATE) (types.count .DATETIME)
      (types.count .BOOLEAN) (types.count .STRING)
    if 5 * best.2 ≥ 3 * n then best.1 else .STRING

/-- `ExcelProcessor.detect_column_types` over a whole frame: one
inference per column. -/
def detectColumnTypes (df : List (String × List (Option String))) :
    List (String × DataType) :=
  df.map (fun p => (p.1, detectColumnType p.2))

/-! ## Data validator (src/data_validator.py)

Cell values are embedded as an explicit variant type covering the
kinds of cell the pipeline produces: nulls (`NaN`/`None`), native
booleans, integers and strings. -/

inductive CellVal where
  | vNull
  | vBool (b : Bool)
  | vInt (n : Int)
  | vStr (s : String)
deriving DecidableEq, Repr

/-- Model of `pd.isna(value)` on the embedded universe. -/
def pdIsna : CellVal → Bool
  | .vNull => true
  | _ => false

/-- Model of Python `str(value)`. -/
def pyStr : CellVal → String
  | .vNull => "None"
  | .vBool true => "True"
  | .vBool false => "False"
  | .vInt n => toString n
  | .vStr s => s

/-- A single quote character as a string (used in the source's
formatted messages). -/
def sq : String := String.mk ['\'']

/-- Acceptance of Python `int(text)`: optional surrounding whitespace,
an optional sign, then a non-empty digit run.  (CPython additionally
allows underscore digit separators; not modelled.) -/
def pyIntTextOk (l : List Char) : Bool :=
  let l := ((l.dropWhile isWsChar).reverse.dropWhile isWsChar).reverse
  let l := match l with | '-' :: r => r | '+' :: r => r | l => l
  !l.isEmpty && l.all isDig

/-- Mantissa of a Python float literal: `digits [. digits]` or
`. digits`. -/
def pyFloatMantissaOk (l : List Char) : Bool :=
  let d := digCount l
  match digRest l with
  | [] => decide (1 ≤ d)
  | '.' :: f => (decide (1 ≤ d) || decide (1 ≤ digCount f)) && f.all isDig
  | _ => false

/-- Acceptance of Python `float(text)`: optional whitespace and sign,
then `inf`/`infinity`/`nan` (case-insensitive) or a mantissa with an
optional exponent. -/
def pyFloatTextOk (l : List Char) : Bool :=
  let l := ((l.dropWhile isWsChar).reverse.dropWhile isWsChar).reverse
  let l := match l with | '-' :: r => r | '+' :: r => r | l => l
  let low := l.map pyLowerChar
  if low = ['i', 'n', 'f'] || low = ['i', 'n', 'f', 'i', 'n', 'i', 't', 'y'] ||
     low = ['n', 'a', 'n'] then true
  else
    let m := l.takeWhile (fun c => !(c = 'e' || c = 'E'))
    let r := l.dropWhile (fun c => !(c = 'e' || c = 'E'))
    pyFloatMantissaOk m &&
    (match r with
     | [] => true
     | _ :: ex =>
       let ex := match ex with | '-' :: t => t | '+' :: t => t | t => t
       !ex.isEmpty && ex.all isDig)

/-- Whether `float(value)` succeeds on a cell (numbers always convert;
strings per the literal grammar; booleans convert as 0/1). -/
def pyFloatOk : CellVal → Bool
  | .vNull => false
  | .vBool _ => true
  | .vInt _ => true
  | .vStr s => pyFloatTextOk s.data

/-- Whether `float(value) < 0` for a cell on which `float` succeeds
(used by the positive-number rule).  A negative sign with a non-zero
magnitude; exponent underflow to zero is not modelled. -/
def pyFloatIsNeg : CellVal → Bool
  | .vNull => false
  | .vBool _ => false
  | .vInt n => decide (n < 0)
  | .vStr s =>
    let l := ((s.data.dropWhile isWsChar).reverse.dropWhile isWsChar).reverse
    match l with
    | '-' :: r =>
      pyFloatTextOk s.data &&
      ((r.map pyLowerChar).take 3 = ['i', 'n', 'f'] ||
       (r.takeWhile (fun c => !(c = 'e' || c = 'E'))).any
         (fun c => isDig c && c ≠ '0'))
    | _ => false

/-- The boolean literal set of `DataValidator._validate_cell_type`. -/
def boolLiterals : List String :=
  ["true", "false", "yes", "no", "y", "n", "1", "0"]

/-- The external collaborators of the validator: the outcome of
`pd.to_datetime(value)` (a parser outside this repository) and the
outcome of the date-range business rule, which compares against the
wall clock (`pd.to_datetime('now')`). -/
structure ExtEnv where
  pdParseOk : CellVal → Bool
  dateRangeMsg : CellVal → Option String

/-- `DataValidator._validate_cell_type`: per-cell type check against
the destination type; `none` means the cell is accepted, `some msg` is
the ERROR message.  Python's `bool` is an `int` subclass, so native
booleans pass the `isinstance` tests of the INTEGER and DECIMAL
branches. -/
def validateCellType (env : ExtEnv) (value : CellVal) (expected : DataType) :
    Option String :=
  if pdIsna value then none
  else
    match expected with
    | .INTEGER =>
      match value with
      | .vInt _ => none
      | .vBool _ => none
      | _ =>
        if pyIntTextOk ((pyStr value).data.filter (fun c => c ≠ ',')) then none
        else some "No es un número entero válido"
    | .DECIMAL =>
      match value with
      | .vInt _ => none
      | .vBool _ => none
      | _ =>
        if pyFloatTextOk ((pyStr value).data.filter (fun c => c ≠ ',')) then none
        else some "No es un número decimal válido"
    | .BOOLEAN =>
      match value with
      | .vBool _ => none
      | _ =>
        if boolLiterals.contains (pyStrip (pyLower (pyStr value))) then none
        else some "No es un valor booleano válido"
    | .DATE => if env.pdParseOk value then none else some "No es una fecha/hora válida"
    | .DATETIME => if env.pdParseOk value then none else some "No es una fecha/hora válida"
    | .STRING => none

/-- Severity enum of validation issues. -/
inductive ValidationSeverity where
  | INFO
  | WARNING
  | ERROR
  | CRITICAL
deriving DecidableEq, Repr

/-- The `.value` string of a severity. -/
def ValidationSeverity.value : ValidationSeverity → String
  | .INFO => "INFO"
  | .WARNING => "WARNING"
  | .ERROR => "ERROR"
  | .CRITICAL => "CRITICAL"

/-- `ColumnMapping` dataclass of src/excel_processor.py (the fields the
validator consumes plus the bookkeeping fields of the dataclass). -/
structure ColumnMapping where
  excelColumn : String
  dbColumn : String
  excelIndex : Nat
  dataType : DataType
  maxLength : Option Nat
  isNullable : Bool
  confidenceScore : ℚ
  validationErrors : List String
deriving DecidableEq, Repr

/-- A pandas DataFrame: named columns and rows of cells (row `i`,
column `j` is `rows[i][j]`, matching column `columns[j]`). -/
structure DataFrame where
  columns : List String
  rows : List (List CellVal)
deriving DecidableEq, Repr

/-- The values of one named column (first matching label, as pandas
column selection on unique labels). -/
def colValues (df : DataFrame) (c : String) : List CellVal :=
  match df.columns.indexOf? c with
  | none => []
  | some i => df.rows.map (fun r => r.getD i .vNull)

/-- `ValidationIssue` dataclass. -/
structure ValidationIssue where
  rowNumber : Nat
  columnName : String
  value : CellVal
  ruleName : String
  message : String
  severity : ValidationSeverity
  suggestedFix : Option String
deriving DecidableEq, Repr

/-- Substring containment, the model of Python's `sub in s`. -/
def substrStr (sub s : String) : Bool :=
  s.data.tails.any (fun t => sub.data.isPrefixOf t)

/-- Context passed to a business-rule validator via `kwargs`. -/
structure RuleCtx where
  columnName : String
  maxLength : Option Nat
  isRequired : Bool

/-- Rule `required_value`. -/
def ruleRequired (ctx : RuleCtx) (v : CellVal) : Option String :=
  if !ctx.isRequired then none
  else if pdIsna v || (pyStrip (pyStr v)).isEmpty then
    some "Campo requerido no puede estar vacío"
  else none

/-- Rule `string_length`. -/
def ruleStringLength (ctx : RuleCtx) (v : CellVal) : Option String :=
  if pdIsna v then none
  else
    match ctx.maxLength with
    | none => none
    | some m =>
      if (pyStr v).length > m then
        some ("Longitud excede el máximo permitido (" ++ toString m ++ " caracteres)")
      else none

/-- Email regex `^[a-zA-Z0-9._%+-]+@[a-zA-Z0-9.-]+\.[a-zA-Z]{2,}$`:
the local part may not contain `@`, the domain splits at its last dot
into a non-empty `[a-zA-Z0-9.-]+` part and an alphabetic TLD of length
at least 2. -/
def emailOk (s : String) : Bool :=
  let localClass := fun c : Char =>
    c.isAlpha || c.isDigit || c = '.' || c = '_' || c = '%' || c = '+' || c = '-'
  let domClass := fun c : Char => c.isAlpha || c.isDigit || c = '.' || c = '-'
  match s.data.splitOn '@' with
  | [loc, dom] =>
    !loc.isEmpty && loc.all localClass &&
    (let segs := dom.splitOn '.'
     match segs.getLast? with
     | none => false
     | some tld =>
       decide (2 ≤ segs.length) && decide (2 ≤ tld.length) &&
       tld.all Char.isAlpha &&
       !(String.intercalate "." ((segs.dropLast).map String.mk)).isEmpty &&
       (segs.dropLast).all (fun seg => seg.all domClass))
  | _ => false

/-- Rule `email_format` (only applied when the column name suggests an
email). -/
def ruleEmail (ctx : RuleCtx) (v : CellVal) : Option String :=
  if pdIsna v then none
  else
    let cn := pyLower ctx.columnName
    if !(substrStr "email" cn) && !(substrStr "mail" cn) then none
    else if emailOk (pyStr v) then none
    else some "Formato de email inválido"

/-- Column-name indicators of the `positive_number` rule. -/
def positiveIndicators : List String :=
  ["price", "amount", "quantity", "count", "total", "precio", "cantidad"]

/-- Rule `positive_number` (a failed `float(value)` is passed over, the
type check reports it elsewhere). -/
def rulePositive (ctx : RuleCtx) (v : CellVal) : Option String :=
  if pdIsna v then none
  else
    let cn := pyLower ctx.columnName
    if !(positiveIndicators.any (fun p => substrStr p cn)) then none
    else if pyFloatIsNeg v then some "El valor debería ser positivo"
    else none

/-- Rule `date_range`: delegated to the environment for string cells
(it parses with pandas and compares against the wall clock); any other
cell kind returns no issue, as in the source's `isinstance` dispatch. -/
def ruleDateRange (env : ExtEnv) (_ctx : RuleCtx) (v : CellVal) : Option String :=
  if pdIsna v then none
  else
    match v with
    | .vStr _ => env.dateRangeMsg v
    | _ => none

/-- The problematic substrings of the `special_characters` rule. -/
def problematicTokens : List String :=
  [String.mk ['\''], String.mk ['"'], ";", String.mk ['-', '-'],
   "/*", "*/", "xp_", "sp_"]

/-- Rule `special_characters`. -/
def ruleSpecialChars (_ctx : RuleCtx) (v : CellVal) : Option String :=
  if pdIsna v then none
  else
    match problematicTokens.find? (fun t => substrStr t (pyStr v)) with
    | some t => some ("Contiene caracteres potencialmente problemáticos: " ++ t)
    | none => none

/-- A business rule of `BusinessRuleValidator`. -/
structure BusinessRule where
  name : String
  severity : ValidationSeverity
  appliesTo : List DataType
  run : ExtEnv → RuleCtx → CellVal → Option String

/-- `list(DataType)`: definition order, aliases excluded. -/
def allDataTypes : List DataType :=
  [.STRING, .INTEGER, .DECIMAL, .BOOLEAN, .DATE, .DATETIME]

/-- The default rules of `BusinessRuleValidator._setup_default_rules`,
in registration (dict insertion) order.  The `duplicates` rule is a
no-op at cell level (it is handled at frame level). -/
def defaultRules : List BusinessRule :=
  [⟨"required_value", .ERROR, allDataTypes, fun _ => ruleRequired⟩,
   ⟨"string_length", .ERROR, [.STRING], fun _ => ruleStringLength⟩,
   ⟨"email_format", .WARNING, [.STRING], fun _ => ruleEmail⟩,
   ⟨"positive_number", .WARNING, [.INTEGER, .DECIMAL], fun _ => rulePositive⟩,
   ⟨"date_range", .WARNING, [.DATE, .DATETIME], ruleDateRange⟩,
   ⟨"special_characters", .INFO, [.STRING], fun _ => ruleSpecialChars⟩,
   ⟨"duplicates", .ERROR, allDataTypes, fun _ _ _ => none⟩]

/-- Flat map helper (`(l.map f).flatten`). -/
def concatMap (f : α → List β) (l : List α) : List β := (l.map f).flatten

/-- `DataValidator._validate_structure`: missing expected columns
(ERROR) and unexpected extra columns (INFO).  The source forms Python
sets; only membership matters downstream, the embedding keeps
first-occurrence order. -/
def validateStructure (df : DataFrame) (mappings : List ColumnMapping) :
    List ValidationIssue :=
  let expected := (mappings.map (·.excelColumn)).dedup
  let missing := expected.filter (fun c => !(df.columns.contains c))
  let extra := df.columns.dedup.filter (fun c => !(expected.contains c))
  missing.map (fun c =>
    ⟨0, c, .vStr "", "missing_column",
     "Columna esperada " ++ sq ++ c ++ sq ++ " no encontrada", .ERROR,
     some "Verificar nombres de columnas en Excel"⟩) ++
  extra.map (fun c =>
    ⟨0, c, .vStr "", "extra_column",
     "Columna inesperada " ++ sq ++ c ++ sq ++ " encontrada", .INFO,
     some "Considerar si debe incluirse en el mapeo"⟩)

/-- `DataValidator._validate_data_types`: per-cell type check of every
non-null cell of every mapped column present in the frame. -/
def validateDataTypes (env : ExtEnv) (df : DataFrame)
    (mappings : List ColumnMapping) : List ValidationIssue :=
  concatMap (fun m =>
    if df.columns.contains m.excelColumn then
      (colValues df m.excelColumn).enum.filterMap (fun p =>
        if pdIsna p.2 then none
        else
          match validateCellType env p.2 m.dataType with
          | some msg =>
            some ⟨p.1 + 2, m.excelColumn, p.2, "data_type_validation", msg, .ERROR,
              some ("Convertir a tipo " ++ m.dataType.value)⟩
          | none => none)
    else []) mappings

/-- Destination-table constraints handed to `validate_dataframe`. -/
structure TableConstraints where
  notNullColumns : List String
  uniqueColumns : List String

/-- `DataValidator._validate_table_constraints`: NOT NULL and UNIQUE
checks against the declared constraint columns. -/
def validateTableConstraints (df : DataFrame) (mappings : List ColumnMapping)
    (cons : TableConstraints) : List ValidationIssue :=
  concatMap (fun m =>
    if cons.notNullColumns.contains m.dbColumn && df.columns.contains m.excelColumn then
      (colValues df m.excelColumn).enum.filterMap (fun p =>
        if pdIsna p.2 then
          some ⟨p.1 + 2, m.excelColumn, .vStr "NULL", "not_null_constraint",
            "Columna " ++ sq ++ m.dbColumn ++ sq ++ " no puede ser nula", .ERROR,
            some "Proporcionar un valor válido"⟩
        else none)
    else []) mappings ++
  concatMap (fun m =>
    if cons.uniqueColumns.contains m.dbColumn && df.columns.contains m.excelColumn then
      let vals := colValues df m.excelColumn
      vals.enum.filterMap (fun p =>
        if 2 ≤ vals.count p.2 then
          some ⟨p.1 + 2, m.excelColumn, p.2, "unique_constraint",
            "Valor duplicado en columna única " ++ sq ++ m.dbColumn ++ sq, .ERROR,
            some "Asegurar valores únicos"⟩
        else none)
    else []) mappings

/-- `DataValidator._validate_business_rules`: every applicable rule on
every cell (nulls included, each rule handles them) of every mapped
column present in the frame. -/
def validateBusinessRules (env : ExtEnv) (df : DataFrame)
    (mappings : List ColumnMapping) : List ValidationIssue :=
  concatMap (fun m =>
    if df.columns.contains m.excelColumn then
      let applicable := defaultRules.filter (fun r => r.appliesTo.contains m.dataType)
      concatMap (fun p =>
        applicable.filterMap (fun r =>
          match r.run env ⟨m.excelColumn, m.maxLength, !m.isNullable⟩ p.2 with
          | some msg =>
            some ⟨p.1 + 2, m.excelColumn, p.2, r.name, msg, r.severity, none⟩
          | none => none)) (colValues df m.excelColumn).enum
    else []) mappings

/-- Column-name indicators of the frame-level duplicates check. -/
def uniqueIndicators : List String := ["id", "code", "number", "codigo", "numero"]

/-- `DataValidator._validate_duplicates`: WARNING on repeated values in
columns whose name suggests an identifier. -/
def validateDuplicatesDf (df : DataFrame) (mappings : List ColumnMapping) :
    List ValidationIssue :=
  concatMap (fun m =>
    if df.columns.contains m.excelColumn &&
       uniqueIndicators.any (fun ind => substrStr ind (pyLower m.excelColumn)) then
      let vals := colValues df m.excelColumn
      vals.enum.filterMap (fun p =>
        if 2 ≤ vals.count p.2 then
          some ⟨p.1 + 2, m.excelColumn, p.2, "potential_duplicate",
            "Posible valor duplicado en columna " ++ sq ++ m.excelColumn ++ sq,
            .WARNING, some "Verificar si los duplicados son intencionales"⟩
        else none)
    else []) mappings

/-- All issues accumulated by `validate_dataframe`, in the source's
accumulation order. -/
def allIssues (env : ExtEnv) (df : DataFrame) (mappings : List ColumnMapping)
    (cons : Option TableConstraints) : List ValidationIssue :=
  validateStructure df mappings ++
  validateDataTypes env df mappings ++
  (match cons with
   | some c => validateTableConstraints df mappings c
   | none => []) ++
  validateBusinessRules env df mappings ++
  validateDuplicatesDf df mappings

/-- An entry of the result's `errors`/`warnings` lists (the dicts built
from issues). -/
structure IssueEntry where
  row : Nat
  column : String
  value : String
  message : String
  rule : String
  severity : String
  suggestedFix : Option String
deriving DecidableEq, Repr

/-- Conversion of an issue to a result entry. -/
def toEntry (i : ValidationIssue) : IssueEntry :=
  ⟨i.rowNumber, i.columnName, pyStr i.value, i.message, i.ruleName,
   i.severity.value, i.suggestedFix⟩

/-- `ValidationResult` dataclass (src/excel_processor.py).
`valid_rows = processed_rows - error_count` is a Python int and may go
negative, hence `Int`. -/
structure ValidationResult where
  is_valid : Bool
  errors : List IssueEntry
  warnings : List IssueEntry
  processedRows : Nat
  validRows : Int
deriving DecidableEq, Repr

/-- Simplified rendering of the `{error_rate:.1%}` in the high-error
warning text (integer percentage; the decimal formatting is cosmetic
and inspected by no theorem). -/
def pctText (e n : Nat) : String := toString ((100 * e) / n) ++ "%"

/-- `DataValidator.validate_dataframe`: accumulate issues, count the
ERROR-severity ones, and declare the frame valid when
`error_count / processed_rows <= 0.1` (exactly `10 * error_count ≤ n`;
an empty frame is valid).  ERROR and CRITICAL issues populate
`errors`, the rest `warnings`; when the error rate exceeds the
threshold one extra general WARNING entry is appended. -/
def validateDataframe (env : ExtEnv) (df : DataFrame)
    (mappings : List ColumnMapping) (cons : Option TableConstraints) :
    ValidationResult :=
  let issues := allIssues env df mappings cons
  let n := df.rows.length
  let errorCount := issues.countP (fun i => i.severity == .ERROR)
  let isValid : Bool := n == 0 || decide (10 * errorCount ≤ n)
  let errors := issues.filterMap (fun i =>
    if i.severity == .ERROR || i.severity == .CRITICAL then some (toEntry i) else none)
  let warnings := issues.filterMap (fun i =>
    if i.severity == .ERROR || i.severity == .CRITICAL then none else some (toEntry i))
  let warnings :=
    if n ≠ 0 && decide (n < 10 * errorCount) then
      warnings ++ [⟨0, "GENERAL", "", "Alta tasa de errores: " ++ pctText errorCount n,
        "error_rate_check", "WARNING",
        some "Revisar mapeo de columnas y calidad de datos"⟩]
    else warnings
  ⟨isValid, errors, warnings, n, (n : Int) - (errorCount : Int)⟩

/-! ## Fuzzy table mapper (src/table_mapper.py)

The four string-similarity metrics come from the external `fuzzywuzzy`
library (`fuzz.ratio`, `fuzz.partial_ratio`, `fuzz.token_sort_ratio`,
`fuzz.token_set_ratio`); the embedding receives them as a record of
score functions, exactly as the mapper receives the library. -/

structure FuzzScorer where
  fullRatioScore : String → String → ℚ
  partRatioScore : String → String → ℚ
  tokenSortScore : String → String → ℚ
  tokenSetScore : String → String → ℚ

/-- `TableMapper._normalize_column_name`: lowercase and strip, remove
every character outside `[a-z0-9]`, then remove the first matching
known prefix and the first matching known suffix when a non-empty
residue remains. -/
def stripOnePrefix (ps : List String) (s : String) : String :=
  match ps.find? (fun p => p.data.isPrefixOf s.data && decide (p.length < s.length)) with
  | some p => String.mk (s.data.drop p.length)
  | none => s

/-- Remove the first matching known suffix when a non-empty residue
remains. -/
def stripOneSuffix (ps : List String) (s : String) : String :=
  match ps.find? (fun p => p.data.isSuffixOf s.data && decide (p.length < s.length)) with
  | some p => String.mk (s.data.take (s.length - p.length))
  | none => s

/-- `TableMapper._normalize_column_name`. -/
def normalizeColumnName (c : String) : String :=
  let n := pyStrip (pyLower c)
  let n := String.mk (n.data.filter (fun ch => ('a' ≤ ch && ch ≤ 'z') || ch.isDigit))
  let n := stripOnePrefix ["tbl", "col", "fld", "field"] n
  stripOneSuffix ["id", "key", "code", "num", "no"] n

/-- `TableMapper.common_patterns`, in dict insertion order (the keys
only name the buckets and are not used by the bonus computation). -/
def commonPatterns : List (List String) :=
  [["id", "identifier", "key", "codigo", "code"],
   ["name", "nombre", "title", "titulo", "descripcion", "description"],
   ["date", "fecha", "time", "tiempo", "created", "updated", "modified"],
   ["email", "correo", "mail"],
   ["phone", "telefono", "tel", "celular", "mobile"],
   ["address", "direccion", "location", "ubicacion"],
   ["status", "estado", "active", "activo", "enabled"],
   ["amount", "monto", "price", "precio", "cost", "costo", "value", "valor"],
   ["quantity", "cantidad", "qty", "count", "numero"]]

/-- The pattern loop of `TableMapper._calculate_pattern_bonus`: +15 and
stop when both names hit the same bucket, +5 (and continue) when only
one side hits it. -/
def bonusLoop (e s : String) : List (List String) → ℚ → ℚ
  | [], b => b
  | ps :: rest, b =>
    let em := ps.any (fun p => substrStr p e)
    let sm := ps.any (fun p => substrStr p s)
    if em && sm then b + 15
    else if em || sm then bonusLoop e s rest (b + 5)
    else bonusLoop e s rest b

/-- `TableMapper._calculate_pattern_bonus` (its arguments are the
already-normalized names): pattern loop plus a length-similarity
bonus, capped at 20. -/
def patternBonus (e s : String) : ℚ :=
  let b := bonusLoop e s commonPatterns 0
  let d : Nat := max e.length s.length - min e.length s.length
  let b := if d ≤ 2 then b + 5 else if d ≤ 5 then b + 2 else b
  min 20 b

/-- `TableMapper._determine_match_type` (fuzzy threshold 70, high
confidence threshold 85). -/
def determineMatchType (score : ℚ) : String :=
  if 85 ≤ score then "exact_match"
  else if 70 ≤ score then "fuzzy_match"
  else "low_confidence"

/-- `TableMapper.sql_type_mapping`, in dict insertion order. -/
def sqlTypeMapping : List (String × List String) :=
  [("int", ["int", "integer", "bigint", "smallint", "tinyint"]),
   ("float", ["float", "real", "decimal", "numeric", "money", "smallmoney"]),
   ("string", ["varchar", "nvarchar", "char", "nchar", "text", "ntext"]),
   ("datetime", ["datetime", "datetime2", "date", "time", "smalldatetime"]),
   ("boolean", ["bit"]),
   ("binary", ["binary", "varbinary", "image"])]

/-- `TableMapper._get_simplified_data_type`: first simplified bucket
one of whose SQL type names is a substring of the lowercased type. -/
def getSimplifiedDataType (t : String) : String :=
  let lt := pyLower t
  match sqlTypeMapping.find? (fun p => p.2.any (fun st => substrStr st lt)) with
  | some p => p.1
  | none => "string"

/-- One entry of the destination table structure
(`INFORMATION_SCHEMA.COLUMNS` row). -/
structure SqlColumnInfo where
  columnName : String
  dataType : String
  isNullable : String
  maxLength : Option Nat
  numPrecision : Option Nat
  numScale : Option Nat
deriving DecidableEq, Repr

/-- The `structure_dict` comprehension: keyed by column name, a later
row overwriting an earlier one with the same name. -/
def structureLookup (tbl : List SqlColumnInfo) (name : String) :
    Option SqlColumnInfo :=
  tbl.reverse.find? (fun c => c.columnName == name)

/-- A scored candidate inside `_find_best_column_match` (column, final
score, the four raw scores, pattern bonus). -/
structure ScoredMatch where
  sqlColumn : String
  score : ℚ
  detail : ℚ × ℚ × ℚ × ℚ
  bonus : ℚ
deriving DecidableEq, Repr

/-- An alternative suggestion for an unmapped column. -/
structure AltSuggestion where
  sqlColumn : String
  confidence : ℚ
  reason : String
deriving DecidableEq, Repr

/-- A suggested mapping (the dict built by `suggest_column_mappings` /
`_find_best_column_match`). -/
structure MapperMapping where
  excelColumn : String
  sqlColumn : Option String
  dataType : String
  confidence : ℚ
  matchType : String
  sqlInfo : Option SqlColumnInfo
  scoresDetail : Option (ℚ × ℚ × ℚ × ℚ)
  patternBonus : ℚ
  suggestions : List AltSuggestion
deriving DecidableEq, Repr

/-- Stable descending insertion by score (`heapq.nlargest` inside
`process.extract` keeps first-seen order on ties). -/
def insertScoreDesc (x : String × ℚ) :
    List (String × ℚ) → List (String × ℚ)
  | [] => [x]
  | y :: ys => if x.2 ≥ y.2 then x :: y :: ys else y :: insertScoreDesc x ys

/-- Stable descending sort by score. -/
def sortScoreDesc : List (String × ℚ) → List (String × ℚ)
  | [] => []
  | x :: xs => insertScoreDesc x (sortScoreDesc xs)

/-- `TableMapper._get_alternative_suggestions`: top three unclaimed
columns by token-sort score on the raw name, kept when scoring at
least 50. -/
def getAlternativeSuggestions (F : FuzzScorer) (excelCol : String)
    (sqlCols : List String) (used : List String) : List AltSuggestion :=
  let available := sqlCols.filter (fun c => decide (c ∉ used))
  if available.isEmpty then []
  else
    let scored := available.map (fun c => (c, F.tokenSortScore excelCol c))
    ((sortScoreDesc scored).take 3).filterMap (fun p =>
      if 50 ≤ p.2 then some ⟨p.1, p.2 / 100, "fuzzy_similarity"⟩ else none)

/-- `TableMapper._find_best_column_match`: score every unclaimed
destination column (weighted sum of the four metrics plus the pattern
bonus, capped at 100), keep those at or above the fuzzy threshold 70,
pick the first of the maxima (Python `max`), and build the mapping
dict from the table structure.  A candidate column absent from the
structure dict raises `KeyError` in the source, caught by the
enclosing `except`, which returns `None`; the embedding mirrors that
as the `none` branch of the lookup.  `scoreCandidate` is the per-column
body of its scoring loop: the weighted sum of the four metrics plus
the pattern bonus, capped at 100 and kept when at least the fuzzy
threshold 70. -/
def scoreCandidate (F : FuzzScorer) (ne : String) (c : String) :
    Option ScoredMatch :=
  let ns := normalizeColumnName c
  let r1 := F.fullRatioScore ne ns
  let r2 := F.partRatioScore ne ns
  let r3 := F.tokenSortScore ne ns
  let r4 := F.tokenSetScore ne ns
  let w := r1 * (3 / 10) + r2 * (2 / 10) + r3 * (3 / 10) + r4 * (2 / 10)
  let pb := patternBonus ne ns
  let fs := min 100 (w + pb)
  if 70 ≤ fs then some (⟨c, fs, (r1, r2, r3, r4), pb⟩ : ScoredMatch) else none

/-- `TableMapper._find_best_column_match` (see `scoreCandidate`). -/
def findBestColumnMatch (F : FuzzScorer) (excelCol : String)
    (sqlCols : List String) (tbl : List SqlColumnInfo) (used : List String) :
    Option MapperMapping :=
  let available := sqlCols.filter (fun c => decide (c ∉ used))
  if available.isEmpty then none
  else
    let ne := normalizeColumnName excelCol
    let cands := available.filterMap (scoreCandidate F ne)
    match cands with
    | [] => none
    | m0 :: rest =>
      let best := rest.foldl (fun b x => if x.score > b.score then x else b) m0
      match structureLookup tbl best.sqlColumn with
      | none => none
      | some info =>
        some ⟨excelCol, some best.sqlColumn, getSimplifiedDataType info.dataType,
          best.score / 100, determineMatchType best.score, some info,
          some best.detail, best.bonus, []⟩

/-- The no-match mapping appended when `_find_best_column_match`
returns `None`. -/
def noMatchMapping (excelCol : String) (sugg : List AltSuggestion) :
    MapperMapping :=
  ⟨excelCol, none, "unknown", 0, "no_match", none, none, 0, sugg⟩

/-- The `for excel_col in excel_columns` loop of
`suggest_column_mappings`, threading the claimed-columns set. -/
def suggestLoop (F : FuzzScorer) (sqlCols : List String)
    (tbl : List SqlColumnInfo) : List String → List String → List MapperMapping
  | [], _ => []
  | ec :: rest, used =>
    match findBestColumnMatch F ec sqlCols tbl used with
    | some m => m :: suggestLoop F sqlCols tbl rest (used ++ m.sqlColumn.toList)
    | none =>
      noMatchMapping ec (getAlternativeSuggestions F ec sqlCols used) ::
        suggestLoop F sqlCols tbl rest used

/-- Stable descending insertion by confidence (Python's stable
`list.sort(key=..., reverse=True)` keeps original order on ties). -/
def insertConfDesc (x : MapperMapping) :
    List MapperMapping → List MapperMapping
  | [] => [x]
  | y :: ys =>
    if x.confidence ≥ y.confidence then x :: y :: ys else y :: insertConfDesc x ys

/-- Stable descending sort by confidence. -/
def sortConfDesc : List MapperMapping → List MapperMapping
  | [] => []
  | x :: xs => insertConfDesc x (sortConfDesc xs)

/-- `TableMapper.suggest_column_mappings`: one mapping per spreadsheet
column, greedily claiming destination columns, sorted by descending
confidence. -/
def suggestColumnMappings (F : FuzzScorer) (excelCols sqlCols : List String)
    (tbl : List SqlColumnInfo) : List MapperMapping :=
  sortConfDesc (suggestLoop F sqlCols tbl excelCols [])

/-! ## Metadata utilities and duplicate filter
(src/metadata_utils.py, src/duplicate_filter.py)

The database connection is an external collaborator: the embedding
receives the catalog answers (primary key, unique constraints, unique
indexes per table) and the per-row existence check as a record of
functions, exactly as the classes receive `db_connection`. -/

structure UniqueConstraintInfo where
  name : String
  columns : List String
deriving DecidableEq, Repr

/-- The catalog rows for one destination table, already grouped by
constraint/index name as `get_table_unique_constraints` /
`get_table_unique_indexes` group them. -/
structure TableMeta where
  primaryKeys : List String
  uniqueConstraints : List UniqueConstraintInfo
  uniqueIndexes : List UniqueConstraintInfo
deriving DecidableEq, Repr

/-- The database collaborator: catalog metadata per (schema, table),
and the `SELECT COUNT(*)` existence check over one row's key
column/value pairs (a `vNull` value stands for the `IS NULL` branch of
the generated predicate; a transient per-row query failure is modelled
by the function answering `false`, the source's fail-open default). -/
structure DbEnv where
  meta : String → String → TableMeta
  rowExists : String → String → List (String × CellVal) → Bool

/-- A resolved unique identifier
(`DatabaseMetadataUtils.get_all_unique_identifiers` entries). -/
structure UniqueIdentifier where
  idType : String
  name : String
  columns : List String
  priority : Nat
deriving DecidableEq, Repr

/-- Stable ascending insertion by priority (Python's stable
`list.sort(key=lambda x: x['priority'])`). -/
def insertPrAsc (x : UniqueIdentifier) :
    List UniqueIdentifier → List UniqueIdentifier
  | [] => [x]
  | y :: ys => if x.priority ≤ y.priority then x :: y :: ys else y :: insertPrAsc x ys

/-- Stable ascending sort by priority. -/
def sortPrAsc : List UniqueIdentifier → List UniqueIdentifier
  | [] => []
  | x :: xs => insertPrAsc x (sortPrAsc xs)

/-- `DatabaseMetadataUtils.get_all_unique_identifiers`: tag the primary
key (priority 1), unique constraints (2) and unique indexes (3), then
stable-sort by priority. -/
def getAllUniqueIdentifiers (env : DbEnv) (schema table : String) :
    List UniqueIdentifier :=
  let m := env.meta schema table
  let l :=
    (if m.primaryKeys.isEmpty then []
     else [⟨"PRIMARY_KEY", "PRIMARY_KEY", m.primaryKeys, 1⟩]) ++
    m.uniqueConstraints.map (fun c => ⟨"UNIQUE_CONSTRAINT", c.name, c.columns, 2⟩) ++
    m.uniqueIndexes.map (fun i => ⟨"UNIQUE_INDEX", i.name, i.columns, 3⟩)
  sortPrAsc l

/-- `DatabaseMetadataUtils.get_best_unique_identifier`: the first
identifier of the sorted list, or `None` when the table has none. -/
def getBestUniqueIdentifier (env : DbEnv) (schema table : String) :
    Option UniqueIdentifier :=
  (getAllUniqueIdentifiers env schema table).head?

/-- `DatabaseMetadataUtils.check_records_exist`, flattened to the list
of per-row existence flags (the source materializes them in an
`exists_in_db` column; batching in groups of 100 issues the same
per-row queries).  Empty or missing key columns flag every row as not
existing. -/
def checkRecordsExist (env : DbEnv) (schema table : String)
    (keyCols : List String) (df : DataFrame) : List Bool :=
  if keyCols.isEmpty then df.rows.map (fun _ => false)
  else if keyCols.any (fun c => !(df.columns.contains c)) then
    df.rows.map (fun _ => false)
  else
    df.rows.map (fun r =>
      env.rowExists schema table (keyCols.map (fun k =>
        (k, match df.columns.indexOf? k with
            | some i => r.getD i .vNull
            | none => .vNull))))

/-- The statistics dict of `filter_new_records` (optional keys as
`Option` fields; `error` is only set by the exception path, which the
embedding does not model). -/
structure FilterStats where
  totalRecords : Nat
  newRecords : Nat
  existingRecords : Nat
  identifierUsed : Option UniqueIdentifier
  filterRate : Option ℚ
  warning : Option String
  error : Option String
deriving DecidableEq, Repr

/-- `DatabaseMetadataUtils.filter_new_records`: resolve the best
identifier; without one return the input unchanged with a warning;
otherwise keep the rows whose existence check answers `false`. -/
def filterNewRecords (env : DbEnv) (schema table : String) (df : DataFrame) :
    DataFrame × FilterStats :=
  match getBestUniqueIdentifier env schema table with
  | none =>
    (df, ⟨df.rows.length, df.rows.length, 0, none, none,
      some "No se encontró identificador único - no se verificaron duplicados",
      none⟩)
  | some ident =>
    let flags := checkRecordsExist env schema table ident.columns df
    let newRows := (df.rows.zip flags).filterMap (fun p =>
      if p.2 then none else some p.1)
    let total := df.rows.length
    let newCount := newRows.length
    (⟨df.columns, newRows⟩,
     ⟨total, newCount, total - newCount, some ident,
      some (if total = 0 then 0 else (newCount : ℚ) / (total : ℚ)), none, none⟩)

/-- The `identifier_info` dict of a filter result: empty dict, `None`,
a warning dict, or the identifier dict. -/
inductive IdentifierInfo where
  | emptyDict
  | nullInfo
  | warnInfo (msg : String)
  | identInfo (u : UniqueIdentifier)
deriving DecidableEq, Repr

/-- `DuplicateFilterResult` dataclass.  `processing_time` is wall-clock
time and is not modelled. -/
structure DuplicateFilterResult where
  success : Bool
  originalCount : Nat
  newRecordsCount : Nat
  duplicateCount : Nat
  filteredData : Option DataFrame
  identifierInfo : IdentifierInfo
  errors : List String
  warnings : List String
deriving DecidableEq, Repr

/-- Python `repr` of a list of strings, as interpolated into the
missing-columns error message. -/
def pyListRepr (l : List String) : String :=
  "[" ++ String.intercalate ", " (l.map (fun c => sq ++ c ++ sq)) ++ "]"

/-- The row cap of the duplicate filter
(`max_records_for_filtering`). -/
def maxRecordsForFiltering : Nat := 10000

/-- The truncation warning text built (and only logged) when the input
exceeds the row cap. -/
def truncationWarningMsg (n : Nat) : String :=
  "El DataFrame tiene " ++ toString n ++ " registros, excede el límite de " ++
  toString maxRecordsForFiltering ++ ". Se procesarán solo los primeros " ++
  toString maxRecordsForFiltering ++ " registros."

/-- The no-identifier warning of `filter_duplicates`. -/
def noIdentifierMsg (schema table : String) : String :=
  "No se encontró identificador único para " ++ schema ++ "." ++ table ++
  ". No se pueden filtrar duplicados."

/-- The missing-key-columns error of `filter_duplicates`. -/
def missingColumnsMsg (missing : List String) : String :=
  "Columnas clave faltantes en los datos: " ++ pyListRepr missing

/-- `DuplicateFilter.filter_duplicates`.  `data.empty` in pandas is
true when either axis is empty.  Inputs beyond the cap are truncated
to their first 10000 rows (the warning built at that point is only
logged, not returned).  Then: no identifier → succeed treating every
row as new, with a warning; identifier with key columns missing from
the batch → fail with the error naming them; otherwise delegate to
`filter_new_records` and propagate its statistics, warning and error. -/
def filterDuplicates (env : DbEnv) (schema table : String)
    (data : DataFrame) : DuplicateFilterResult :=
  if data.rows.isEmpty || data.columns.isEmpty then
    ⟨true, 0, 0, 0, some data, .emptyDict, [],
     ["DataFrame vacío - no hay datos para filtrar"]⟩
  else
    let data :=
      if maxRecordsForFiltering < data.rows.length then
        ⟨data.columns, data.rows.take maxRecordsForFiltering⟩
      else data
    match getBestUniqueIdentifier env schema table with
    | none =>
      ⟨true, data.rows.length, data.rows.length, 0, some data,
       .warnInfo "No se encontró identificador único", [],
       [noIdentifierMsg schema table]⟩
    | some ident =>
      let missing := ident.columns.filter (fun c => !(data.columns.contains c))
      if !missing.isEmpty then
        ⟨false, data.rows.length, 0, 0, none, .identInfo ident,
         [missingColumnsMsg missing], []⟩
      else
        let fr := filterNewRecords env schema table data
        let stats := fr.2
        ⟨stats.error.isNone, stats.totalRecords, stats.newRecords,
         stats.existingRecords, some fr.1,
         (match stats.identifierUsed with
          | some u => .identInfo u
          | none => .nullInfo),
         (match stats.error with | some e => [e] | none => []),
         (match stats.warning with | some w => [w] | none => [])⟩

/-! ## Helper lemmas -/

theorem mem_of_mem_dropWhile {p : α → Bool} {a : α} :
    ∀ {l : List α}, a ∈ l.dropWhile p → a ∈ l
  | [], h => by simp at h
  | b :: l, h => by
    rw [List.dropWhile_cons] at h
    split at h
    · exact List.mem_cons_of_mem b (mem_of_mem_dropWhile h)
    · exact h

theorem count_pair_le_length (l : List DataType) (u t : DataType) (h : u ≠ t) :
    l.count u + l.count t ≤ l.length := by
  induction l with
  | nil => simp
  | cons a r ih =>
    simp only [List.count_cons, List.length_cons, beq_iff_eq]
    by_cases hu : a = u
    · have ht' : ¬ a = t := fun hh => h (hu.symm.trans hh)
      rw [if_pos hu, if_neg ht']
      omega
    · by_cases ht : a = t
      · rw [if_neg hu, if_pos ht]
        omega
      · rw [if_neg hu, if_neg ht]
        omega

theorem pickMaxType_of_strict (f : DataType → Nat) (t : DataType)
    (h : ∀ u, u ≠ t → f u < f t) :
    pickMaxType (f .INTEGER) (f .DECIMAL) (f .DATE) (f .DATETIME)
      (f .BOOLEAN) (f .STRING) = (t, f t) := by
  cases t with
  | STRING =>
    have h1 := h .INTEGER (by decide)
    have h2 := h .DECIMAL (by decide)
    have h3 := h .DATE (by decide)
    have h4 := h .DATETIME (by decide)
    have h5 := h .BOOLEAN (by decide)
    simp only [pickMaxType]
    split_ifs <;> first | rfl | (exfalso; omega)
  | INTEGER =>
    have h1 := h .STRING (by decide)
    have h2 := h .DECIMAL (by decide)
    have h3 := h .DATE (by decide)
    have h4 := h .DATETIME (by decide)
    have h5 := h .BOOLEAN (by decide)
    simp only [pickMaxType]
    split_ifs <;> first | rfl | (exfalso; omega)
  | DECIMAL =>
    have h1 := h .STRING (by decide)
    have h2 := h .INTEGER (by decide)
    have h3 := h .DATE (by decide)
    have h4 := h .DATETIME (by decide)
    have h5 := h .BOOLEAN (by decide)
    simp only [pickMaxType]
    split_ifs <;> first | rfl | (exfalso; omega)
  | BOOLEAN =>
    have h1 := h .STRING (by decide)
    have h2 := h .INTEGER (by decide)
    have h3 := h .DATE (by decide)
    have h4 := h .DATETIME (by decide)
    have h5 := h .DECIMAL (by decide)
    simp only [pickMaxType]
    split_ifs <;> first | rfl | (exfalso; omega)
  | DATE =>
    have h1 := h .STRING (by decide)
    have h2 := h .INTEGER (by decide)
    have h3 := h .BOOLEAN (by decide)
    have h4 := h .DATETIME (by decide)
    have h5 := h .DECIMAL (by decide)
    simp only [pickMaxType]
    split_ifs <;> first | rfl | (exfalso; omega)
  | DATETIME =>
    have h1 := h .STRING (by decide)
    have h2 := h .INTEGER (by decide)
    have h3 := h .BOOLEAN (by decide)
    have h4 := h .DATE (by decide)
    have h5 := h .DECIMAL (by decide)
    simp only [pickMaxType]
    split_ifs <;> first | rfl | (exfalso; omega)

theorem pickMaxType_mem (cI cD cDa cDt cB cS : Nat) :
    pickMaxType cI cD cDa cDt cB cS = (.INTEGER, cI) ∨
    pickMaxType cI cD cDa cDt cB cS = (.DECIMAL, cD) ∨
    pickMaxType cI cD cDa cDt cB cS = (.DATE, cDa) ∨
    pickMaxType cI cD cDa cDt cB cS = (.DATETIME, cDt) ∨
    pickMaxType cI cD cDa cDt cB cS = (.BOOLEAN, cB) ∨
    pickMaxType cI cD cDa cDt cB cS = (.STRING, cS) := by
  simp only [pickMaxType]
  split_ifs <;> simp

theorem detect_of_share (col : List (Option String)) (t : DataType)
    (hne : col.filterMap id ≠ [])
    (h60 : 3 * (col.filterMap id).length ≤
      5 * (((col.filterMap id).map classifyValue).count t)) :
    detectColumnType col = t := by
  simp only [detectColumnType, List.length_map]
  rw [if_neg (by simpa using hne)]
  have hn : 1 ≤ (col.filterMap id).length := List.length_pos.mpr hne
  have hstrict : ∀ u, u ≠ t →
      ((col.filterMap id).map classifyValue).count u <
      ((col.filterMap id).map classifyValue).count t := by
    intro u hu
    have hp := count_pair_le_length ((col.filterMap id).map classifyValue) u t hu
    rw [List.length_map] at hp
    omega
  rw [pickMaxType_of_strict (fun u => ((col.filterMap id).map classifyValue).count u)
    t hstrict]
  rw [if_pos (by simpa using h60)]

theorem detect_of_no_share (col : List (Option String))
    (h : ∀ t : DataType,
      5 * (((col.filterMap id).map classifyValue).count t) <
        3 * (col.filterMap id).length) :
    detectColumnType col = DataType.STRING := by
  by_cases hne : col.filterMap id = []
  · simp only [detectColumnType]
    rw [if_pos (by simpa using hne)]
  · simp only [detectColumnType, List.length_map]
    rw [if_neg (by simpa using hne)]
    have h1 := h DataType.INTEGER
    have h2 := h DataType.DECIMAL
    have h3 := h DataType.DATE
    have h4 := h DataType.DATETIME
    have h5 := h DataType.BOOLEAN
    have h6 := h DataType.STRING
    rcases pickMaxType_mem (((col.filterMap id).map classifyValue).count .INTEGER)
        (((col.filterMap id).map classifyValue).count .DECIMAL)
        (((col.filterMap id).map classifyValue).count .DATE)
        (((col.filterMap id).map classifyValue).count .DATETIME)
        (((col.filterMap id).map classifyValue).count .BOOLEAN)
        (((col.filterMap id).map classifyValue).count .STRING) with
      hm | hm | hm | hm | hm | hm <;>
    rw [hm] <;> rw [if_neg (by simp only [ge_iff_le, not_le]; omega)]

theorem mem_concatMap {f : α → List β} {l : List α} {b : β} :
    b ∈ concatMap f l ↔ ∃ a ∈ l, b ∈ f a := by
  simp [concatMap, List.mem_flatten]

theorem length_filterMap_if {p : α → Bool} {g : α → β} (l : List α) :
    (l.filterMap (fun i => if p i then some (g i) else none)).length = l.countP p := by
  induction l with
  | nil => rfl
  | cons a t ih =>
    rw [List.filterMap_cons, List.countP_cons]
    by_cases h : p a <;> simp [h, ih]

theorem issue_fields (env : ExtEnv) (df : DataFrame)
    (mappings : List ColumnMapping) (cons : Option TableConstraints) :
    ∀ i ∈ allIssues env df mappings cons,
      i.severity ≠ ValidationSeverity.CRITICAL ∧ i.ruleName ≠ "error_rate_check" := by
  intro i hi
  simp only [allIssues, List.mem_append] at hi
  rcases hi with (((hi | hi) | hi) | hi) | hi
  · simp only [validateStructure, List.mem_append, List.mem_map] at hi
    rcases hi with ⟨c, -, rfl⟩ | ⟨c, -, rfl⟩
    · exact ⟨by simp, by simp⟩
    · exact ⟨by simp, by simp⟩
  · rw [validateDataTypes, mem_concatMap] at hi
    obtain ⟨m, -, hi⟩ := hi
    split at hi
    · obtain ⟨p, -, hg⟩ := List.mem_filterMap.mp hi
      split at hg
      · exact absurd hg (by simp)
      · split at hg
        · obtain rfl := Option.some.inj hg
          exact ⟨by simp, by simp⟩
        · exact absurd hg (by simp)
    · simp at hi
  · cases cons with
    | none => simp at hi
    | some c =>
      simp only [validateTableConstraints, List.mem_append] at hi
      rcases hi with hi | hi <;>
      · rw [mem_concatMap] at hi
        obtain ⟨m, -, hi⟩ := hi
        split at hi
        · obtain ⟨p, -, hg⟩ := List.mem_filterMap.mp hi
          split at hg
          · obtain rfl := Option.some.inj hg
            exact ⟨by simp, by simp⟩
          · exact absurd hg (by simp)
        · simp at hi
  · rw [validateBusinessRules, mem_concatMap] at hi
    obtain ⟨m, -, hi⟩ := hi
    split at hi
    · rw [mem_concatMap] at hi
      obtain ⟨p, -, hi⟩ := hi
      obtain ⟨r, hr, hg⟩ := List.mem_filterMap.mp hi
      have hrm : r ∈ defaultRules := List.mem_of_mem_filter hr
      split at hg
      · obtain rfl := Option.some.inj hg
        simp only [defaultRules, List.mem_cons, List.not_mem_nil, or_false] at hrm
        rcases hrm with rfl | rfl | rfl | rfl | rfl | rfl | rfl <;>
          exact ⟨by simp, by simp⟩
      · exact absurd hg (by simp)
    · simp at hi
  · rw [validateDuplicatesDf, mem_concatMap] at hi
    obtain ⟨m, -, hi⟩ := hi
    split at hi
    · obtain ⟨p, -, hg⟩ := List.mem_filterMap.mp hi
      split at hg
      · obtain rfl := Option.some.inj hg
        exact ⟨by simp, by simp⟩
      · exact absurd hg (by simp)
    · simp at hi

theorem colon_mem_of_isTimePart {l : List Char} (h : isTimePart l = true) :
    ':' ∈ l := by
  rw [isTimePart] at h
  rcases hm : digRest l with _ | ⟨c, r⟩ <;> rw [hm] at h
  · simp at h
  · simp only [Bool.and_eq_true, decide_eq_true_eq] at h
    obtain ⟨⟨-, -⟩, ⟨hc, -⟩, -⟩ := h
    apply mem_of_mem_dropWhile (p := isDig)
    rw [show l.dropWhile isDig = digRest l from rfl, hm, hc]
    exact List.mem_cons_self _ _

theorem colon_mem_of_isDatetimeA {l : List Char} (h : isDatetimeA l = true) :
    ':' ∈ l := by
  rw [isDatetimeA] at h
  rcases hm1 : digRest l with _ | ⟨c1, r2⟩ <;> rw [hm1] at h
  · simp at h
  simp only [Bool.and_eq_true, decide_eq_true_eq] at h
  obtain ⟨⟨-, -⟩, -, ⟨-, -⟩, hrest⟩ := h
  rcases hm2 : digRest r2 with _ | ⟨c2, r4⟩ <;> rw [hm2] at hrest
  · simp at hrest
  simp only [Bool.and_eq_true, decide_eq_true_eq] at hrest
  obtain ⟨-, ⟨-, -⟩, -, ht⟩ := hrest
  have h1 : ':' ∈ (digRest r4).dropWhile isWsChar := colon_mem_of_isTimePart ht
  have h2 : ':' ∈ r4 := mem_of_mem_dropWhile (mem_of_mem_dropWhile h1)
  have h3 : ':' ∈ r2 := by
    apply mem_of_mem_dropWhile (p := isDig)
    rw [show r2.dropWhile isDig = digRest r2 from rfl, hm2]
    exact List.mem_cons_of_mem _ h2
  apply mem_of_mem_dropWhile (p := isDig)
  rw [show l.dropWhile isDig = digRest l from rfl, hm1]
  exact List.mem_cons_of_mem _ h3

theorem chars_of_isDateA {l : List Char} (h : isDateA l = true) :
    ∀ c ∈ l, isDig c = true ∨ isSepChar c = true := by
  rw [isDateA] at h
  rcases hm1 : digRest l with _ | ⟨c1, r2⟩ <;> rw [hm1] at h
  · simp at h
  simp only [Bool.and_eq_true, decide_eq_true_eq] at h
  obtain ⟨⟨-, -⟩, hsep1, ⟨-, -⟩, h2⟩ := h
  rcases hm2 : digRest r2 with _ | ⟨c2, r4⟩ <;> rw [hm2] at h2
  · simp at h2
  simp only [Bool.and_eq_true, decide_eq_true_eq] at h2
  obtain ⟨hsep2, ⟨-, -⟩, hnil⟩ := h2
  have hnil' : digRest r4 = [] := by simpa using hnil
  intro c hc
  have hl : l.takeWhile isDig ++ digRest l = l :=
    List.takeWhile_append_dropWhile isDig l
  rw [← hl] at hc
  rcases List.mem_append.mp hc with hc | hc
  · exact Or.inl (List.mem_takeWhile_imp hc)
  rw [hm1] at hc
  rcases List.mem_cons.mp hc with rfl | hc
  · exact Or.inr hsep1
  have hr2 : r2.takeWhile isDig ++ digRest r2 = r2 :=
    List.takeWhile_append_dropWhile isDig r2
  rw [← hr2] at hc
  rcases List.mem_append.mp hc with hc | hc
  · exact Or.inl (List.mem_takeWhile_imp hc)
  rw [hm2] at hc
  rcases List.mem_cons.mp hc with rfl | hc
  · exact Or.inr hsep2
  have hr4 : r4.takeWhile isDig ++ digRest r4 = r4 :=
    List.takeWhile_append_dropWhile isDig r4
  rw [← hr4, hnil', List.append_nil] at hc
  exact Or.inl (List.mem_takeWhile_imp hc)

theorem chars_of_isDateB {l : List Char} (h : isDateB l = true) :
    ∀ c ∈ l, isDig c = true ∨ isSepChar c = true := by
  rw [isDateB] at h
  rcases hm1 : digRest l with _ | ⟨c1, r2⟩ <;> rw [hm1] at h
  · simp at h
  simp only [Bool.and_eq_true, decide_eq_true_eq] at h
  obtain ⟨-, hsep1, ⟨-, -⟩, h2⟩ := h
  rcases hm2 : digRest r2 with _ | ⟨c2, r4⟩ <;> rw [hm2] at h2
  · simp at h2
  simp only [Bool.and_eq_true, decide_eq_true_eq] at h2
  obtain ⟨hsep2, ⟨-, -⟩, hnil⟩ := h2
  have hnil' : digRest r4 = [] := by simpa using hnil
  intro c hc
  have hl : l.takeWhile isDig ++ digRest l = l :=
    List.takeWhile_append_dropWhile isDig l
  rw [← hl] at hc
  rcases List.mem_append.mp hc with hc | hc
  · exact Or.inl (List.mem_takeWhile_imp hc)
  rw [hm1] at hc
  rcases List.mem_cons.mp hc with rfl | hc
  · exact Or.inr hsep1
  have hr2 : r2.takeWhile isDig ++ digRest r2 = r2 :=
    List.takeWhile_append_dropWhile isDig r2
  rw [← hr2] at hc
  rcases List.mem_append.mp hc with hc | hc
  · exact Or.inl (List.mem_takeWhile_imp hc)
  rw [hm2] at hc
  rcases List.mem_cons.mp hc with rfl | hc
  · exact Or.inr hsep2
  have hr4 : r4.takeWhile isDig ++ digRest r4 = r4 :=
    List.takeWhile_append_dropWhile isDig r4
  rw [← hr4, hnil', List.append_nil] at hc
  exact Or.inl (List.mem_takeWhile_imp hc)

theorem classify_eq_spec_classify (v : String) :
    classifyValue v = specClassifyValue v := by
  simp only [classifyValue, specClassifyValue]
  by_cases hb : booleanValues.contains (pyLower (pyStrip v))
  · rw [if_pos hb, if_pos hb]
  rw [if_neg hb, if_neg hb]
  by_cases hdt : isDatetimeStr (pyStrip v)
  · by_cases hda : isDateStr (pyStrip v)
    · exfalso
      have hcolon : ':' ∈ (pyStrip v).data :=
        colon_mem_of_isDatetimeA (by simpa [isDatetimeStr] using hdt)
      rw [isDateStr, Bool.or_eq_true] at hda
      rcases hda with h | h
      · rcases chars_of_isDateA h ':' hcolon with h' | h' <;>
          exact absurd h' (by decide)
      · rcases chars_of_isDateB h ':' hcolon with h' | h' <;>
          exact absurd h' (by decide)
    · rw [if_neg hda, if_pos hdt, if_pos hdt]
  · by_cases hda : isDateStr (pyStrip v)
    · rw [if_pos hda, if_neg hdt, if_pos hda]
    · rw [if_neg hda, if_neg hdt, if_neg hdt, if_neg hda]

/-! ## Claim theorems -/

/-- C2: `detect_column_types` returns the bucket holding at least 60%
of the non-null sample (such a bucket, when it exists, is unique and
maximal), returns STRING when no bucket reaches 60% or when no
non-null value exists, and classifies a single-value column by that
value's bucket. -/
theorem detect_column_types_threshold_spec :
    (∀ col : List (Option String), col.filterMap id = [] →
        detectColumnType col = DataType.STRING) ∧
    (∀ (col : List (Option String)) (t : DataType),
        col.filterMap id ≠ [] →
        3 * (col.filterMap id).length ≤
          5 * (((col.filterMap id).map classifyValue).count t) →
        detectColumnType col = t) ∧
    (∀ col : List (Option String),
        (∀ t : DataType,
          5 * (((col.filterMap id).map classifyValue).count t) <
            3 * (col.filterMap id).length) →
        detectColumnType col = DataType.STRING) ∧
    (∀ v : String, detectColumnType [some v] = classifyValue v) := by
  refine ⟨?_, detect_of_share, detect_of_no_share, ?_⟩
  · intro col hc
    simp only [detectColumnType]
    rw [if_pos (by simpa using hc)]
  · intro v
    apply detect_of_share
    · simp
    · simp

/-- Witness for C2: a column where two of three non-null values are
integers (66% ≥ 60%) is inferred INTEGER. -/
theorem detect_column_types_threshold_witness :
    detectColumnType [some "7", none, some "8", some "x"] = DataType.INTEGER :=
  detect_column_types_threshold_spec.2.1 [some "7", none, some "8", some "x"]
    DataType.INTEGER (by decide) (by decide)

/-- C9: the per-value classifier applies the fixed priority order
stated by the spec — boolean literals, then datetime, then date, then
integer, then decimal, else string (the source tests the date regex
before the datetime regex, but the two patterns are disjoint, so the
orders agree); in particular "2024" is INTEGER, never BOOLEAN, and
"01/02/2024" is DATE. -/
theorem classify_value_priority_order :
    (∀ v : String, classifyValue v = specClassifyValue v) ∧
    classifyValue "2024" = DataType.INTEGER ∧
    classifyValue "01/02/2024" = DataType.DATE :=
  ⟨classify_eq_spec_classify, by decide, by decide⟩

/-- A trivial external environment: a pandas parser accepting nothing
and a date-range check reporting nothing. -/
def trivEnv : ExtEnv := ⟨fun _ => false, fun _ => none⟩

/-- Counterexample for C3: the validator's boolean literal set holds
only the eight English literals, so the Spanish literals the claim
lists as accepted ("verdadero", and "sí" with its accent) are in fact
rejected with an ERROR message. -/
theorem validate_cell_type_boolean_spanish_cex :
    validateCellType trivEnv (.vStr "verdadero") .BOOLEAN =
      some "No es un valor booleano válido" ∧
    validateCellType trivEnv (.vStr "sí") .BOOLEAN =
      some "No es un valor booleano válido" := by
  exact ⟨by decide, by decide⟩

/-- C3 (amended): for every non-null cell validated under BOOLEAN, the
validator accepts exactly the native booleans and the values whose
lowercased, stripped string form is one of the eight literals
true/false/yes/no/y/n/1/0; everything else gets the ERROR message.
The Spanish forms other than "no" are not in the set. -/
theorem validate_cell_type_boolean_literals (env : ExtEnv) (v : CellVal)
    (h : pdIsna v = false) :
    validateCellType env v .BOOLEAN = none ↔
      (∃ b, v = .vBool b) ∨
        boolLiterals.contains (pyStrip (pyLower (pyStr v))) = true := by
  cases v with
  | vNull => simp [pdIsna] at h
  | vBool b => simp [validateCellType, pdIsna]
  | vInt n =>
    by_cases hc : boolLiterals.contains (pyStrip (pyLower (pyStr (CellVal.vInt n)))) <;>
      simp [validateCellType, pdIsna, hc]
  | vStr s =>
    by_cases hc : boolLiterals.contains (pyStrip (pyLower (pyStr (CellVal.vStr s)))) <;>
      simp [validateCellType, pdIsna, hc]

/-- Witness for C3 (amended): " Yes " is accepted under BOOLEAN. -/
theorem validate_cell_type_boolean_witness :
    validateCellType trivEnv (.vStr " Yes ") .BOOLEAN = none :=
  (validate_cell_type_boolean_literals trivEnv (.vStr " Yes ") (by decide)).mpr
    (Or.inr (by decide))

/-- Two INTEGER column mappings over columns `a` and `b`. -/
def cexMappings : List ColumnMapping :=
  [⟨"a", "a", 0, .INTEGER, none, true, 0, []⟩,
   ⟨"b", "b", 1, .INTEGER, none, true, 0, []⟩]

/-- Ten rows; the first holds two non-integer cells (two ERROR issues
in one row), the rest valid integers. -/
def cexDf : DataFrame :=
  ⟨["a", "b"], [.vStr "x", .vStr "y"] :: List.replicate 9 [.vInt 1, .vInt 2]⟩

/-- Counterexample for C8: one row with two bad cells yields two ERROR
issues, so the validator counts 2/10 > 10% and reports invalid, while
the ratio of error-flagged rows is 1/10 ≤ 10% — validity follows the
issue count, not the error-row count of the claim. -/
theorem validate_dataframe_error_rate_cex :
    (validateDataframe trivEnv cexDf cexMappings none).is_valid = false ∧
    10 * (((validateDataframe trivEnv cexDf cexMappings none).errors.map
        (fun e => e.row)).dedup.length) ≤
      (validateDataframe trivEnv cexDf cexMappings none).processedRows := by
  exact ⟨by decide, by decide⟩

/-- C8 (amended): for every frame with at least one row, `is_valid` is
true exactly when the number of ERROR-severity issues (the entries of
the result's `errors` list; one cell can contribute several) is at
most 10% of the processed row count, and exactly one extra
`error_rate_check` WARNING is appended when that bound is exceeded. -/
theorem validate_dataframe_error_issue_rate (env : ExtEnv) (df : DataFrame)
    (mappings : List ColumnMapping) (cons : Option TableConstraints)
    (h : 1 ≤ df.rows.length) :
    ((validateDataframe env df mappings cons).is_valid = true ↔
      10 * (validateDataframe env df mappings cons).errors.length ≤
        (validateDataframe env df mappings cons).processedRows) ∧
    (validateDataframe env df mappings cons).warnings.countP
        (fun e => e.rule == "error_rate_check") =
      (if (validateDataframe env df mappings cons).is_valid then 0 else 1) := by
  have hfields := issue_fields env df mappings cons
  have herr : (validateDataframe env df mappings cons).errors =
      (allIssues env df mappings cons).filterMap (fun i =>
        if i.severity == ValidationSeverity.ERROR ||
           i.severity == ValidationSeverity.CRITICAL
        then some (toEntry i) else none) := rfl
  have hv : (validateDataframe env df mappings cons).is_valid =
      (df.rows.length == 0 ||
        decide (10 * (allIssues env df mappings cons).countP
          (fun i => i.severity == ValidationSeverity.ERROR) ≤ df.rows.length)) := rfl
  have hp : (validateDataframe env df mappings cons).processedRows =
      df.rows.length := rfl
  have hw : (validateDataframe env df mappings cons).warnings =
      (if decide (df.rows.length ≠ 0) &&
          decide (df.rows.length < 10 * (allIssues env df mappings cons).countP
            (fun i => i.severity == ValidationSeverity.ERROR)) then
        ((allIssues env df mappings cons).filterMap (fun i =>
          if i.severity == ValidationSeverity.ERROR ||
             i.severity == ValidationSeverity.CRITICAL
          then none else some (toEntry i))) ++
        [⟨0, "GENERAL", "",
          "Alta tasa de errores: " ++
            pctText ((allIssues env df mappings cons).countP
              (fun i => i.severity == ValidationSeverity.ERROR)) df.rows.length,
          "error_rate_check", "WARNING",
          some "Revisar mapeo de columnas y calidad de datos"⟩]
      else
        (allIssues env df mappings cons).filterMap (fun i =>
          if i.severity == ValidationSeverity.ERROR ||
             i.severity == ValidationSeverity.CRITICAL
          then none else some (toEntry i))) := rfl
  have hnz : (df.rows.length == 0) = false := by
    simp only [beq_eq_false_iff_ne, ne_eq]
    omega
  have hcnt : (allIssues env df mappings cons).countP
      (fun i => i.severity == ValidationSeverity.ERROR ||
        i.severity == ValidationSeverity.CRITICAL) =
      (allIssues env df mappings cons).countP
        (fun i => i.severity == ValidationSeverity.ERROR) := by
    apply List.countP_congr
    intro x hx
    have hc := (hfields x hx).1
    cases hs : x.severity <;> simp_all
  have hlen : (validateDataframe env df mappings cons).errors.length =
      (allIssues env df mappings cons).countP
        (fun i => i.severity == ValidationSeverity.ERROR) := by
    rw [herr, length_filterMap_if, hcnt]
  have hzero : ((allIssues env df mappings cons).filterMap (fun i =>
      if i.severity == ValidationSeverity.ERROR ||
         i.severity == ValidationSeverity.CRITICAL
      then none else some (toEntry i))).countP
        (fun e => e.rule == "error_rate_check") = 0 := by
    rw [List.countP_eq_zero]
    intro a ha
    obtain ⟨x, hx, hg⟩ := List.mem_filterMap.mp ha
    have hr := (hfields x hx).2
    split at hg
    · exact absurd hg (by simp)
    · obtain rfl := Option.some.inj hg
      simpa [toEntry] using hr
  constructor
  · rw [hv, hp, hlen, hnz]
    simp
  · rw [hw, hv, hnz]
    by_cases hgt : df.rows.length < 10 * (allIssues env df mappings cons).countP
        (fun i => i.severity == ValidationSeverity.ERROR)
    · have c1 : (decide (df.rows.length ≠ 0) &&
          decide (df.rows.length < 10 * (allIssues env df mappings cons).countP
            (fun i => i.severity == ValidationSeverity.ERROR))) = true := by
        rw [decide_eq_true (show df.rows.length ≠ 0 by omega), decide_eq_true hgt]
        rfl
      have c2 : (false || decide (10 * (allIssues env df mappings cons).countP
          (fun i => i.severity == ValidationSeverity.ERROR) ≤
            df.rows.length)) = false := by
        rw [Bool.false_or]
        exact decide_eq_false (by omega)
      rw [c1, c2, if_pos rfl, if_neg (show ¬(false = true) by simp),
        List.countP_append, hzero]
      simp [List.countP_cons]
    · have c1 : (decide (df.rows.length ≠ 0) &&
          decide (df.rows.length < 10 * (allIssues env df mappings cons).countP
            (fun i => i.severity == ValidationSeverity.ERROR))) = false := by
        rw [decide_eq_false hgt, Bool.and_false]
      have c2 : (false || decide (10 * (allIssues env df mappings cons).countP
          (fun i => i.severity == ValidationSeverity.ERROR) ≤
            df.rows.length)) = true := by
        rw [Bool.false_or]
        exact decide_eq_true (by omega)
      rw [c1, c2, if_neg (show ¬(false = true) by simp), if_pos rfl]
      exact hzero

/-- Witness for C8 (amended): one clean row, valid result. -/
theorem validate_dataframe_error_issue_rate_witness :
    ((validateDataframe trivEnv ⟨["a"], [[.vInt 1]]⟩ [] none).is_valid = true ↔
      10 * (validateDataframe trivEnv ⟨["a"], [[.vInt 1]]⟩ [] none).errors.length ≤
        (validateDataframe trivEnv ⟨["a"], [[.vInt 1]]⟩ [] none).processedRows) ∧
    (validateDataframe trivEnv ⟨["a"], [[.vInt 1]]⟩ [] none).warnings.countP
        (fun e => e.rule == "error_rate_check") =
      (if (validateDataframe trivEnv ⟨["a"], [[.vInt 1]]⟩ [] none).is_valid
       then 0 else 1) :=
  validate_dataframe_error_issue_rate trivEnv ⟨["a"], [[.vInt 1]]⟩ [] none (by decide)

theorem not_isEmpty_of_ne_nil {l : List α} (h : l ≠ []) : (!l.isEmpty) = true := by
  cases l with
  | nil => exact absurd rfl h
  | cons a t => rfl

/-- The result of `filter_duplicates` on a non-empty frame whose table
has no unique identifier: success, every (capped) row new, one
warning, no error. -/
theorem filterDuplicates_noident (env : DbEnv) (s t : String) (df : DataFrame)
    (hrows : df.rows ≠ []) (hcols : df.columns ≠ [])
    (hbest : getBestUniqueIdentifier env s t = none) :
    filterDuplicates env s t df =
      ⟨true, (df.rows.take maxRecordsForFiltering).length,
       (df.rows.take maxRecordsForFiltering).length, 0,
       some ⟨df.columns, df.rows.take maxRecordsForFiltering⟩,
       .warnInfo "No se encontró identificador único", [],
       [noIdentifierMsg s t]⟩ := by
  obtain ⟨cols, rows⟩ := df
  simp only at hrows hcols
  simp only [filterDuplicates]
  rw [if_neg (by simp [hrows, hcols])]
  by_cases hlen : maxRecordsForFiltering < rows.length
  · rw [if_pos hlen, hbest]
  · rw [if_neg hlen, hbest, List.take_of_length_le (Nat.le_of_not_lt hlen)]

/-- The result of `filter_duplicates` when the resolved identifier has
key columns missing from the batch: failure with the error naming
them. -/
theorem filterDuplicates_missing (env : DbEnv) (s t : String) (df : DataFrame)
    (ident : UniqueIdentifier)
    (hrows : df.rows ≠ []) (hcols : df.columns ≠ [])
    (hbest : getBestUniqueIdentifier env s t = some ident)
    (hm : ident.columns.filter (fun c => !(df.columns.contains c)) ≠ []) :
    filterDuplicates env s t df =
      ⟨false, (df.rows.take maxRecordsForFiltering).length, 0, 0, none,
       .identInfo ident,
       [missingColumnsMsg (ident.columns.filter (fun c => !(df.columns.contains c)))],
       []⟩ := by
  obtain ⟨cols, rows⟩ := df
  simp only at hrows hcols hm
  simp only [filterDuplicates]
  rw [if_neg (by simp [hrows, hcols])]
  by_cases hlen : maxRecordsForFiltering < rows.length
  · rw [if_pos hlen]
    simp only [hbest]
    rw [if_pos (not_isEmpty_of_ne_nil hm)]
  · rw [if_neg hlen, List.take_of_length_le (Nat.le_of_not_lt hlen)]
    simp only [hbest]
    rw [if_pos (not_isEmpty_of_ne_nil hm)]

/-- A catalog with no primary key, no unique constraint and no unique
index on any table, and an existence check finding nothing. -/
def emptyMetaEnv : DbEnv := ⟨fun _ _ => ⟨[], [], []⟩, fun _ _ _ => false⟩

/-- A batch one row beyond the 10,000-row cap of the filter. -/
def bigDf : DataFrame := ⟨["k"], List.replicate 10001 [CellVal.vNull]⟩

theorem bigDf_rows_length : bigDf.rows.length = 10001 := by
  rw [show bigDf.rows = List.replicate 10001 [CellVal.vNull] from rfl,
    List.length_replicate]

theorem bigDf_rows_ne_nil : bigDf.rows ≠ [] := by
  intro hc
  have h1 := bigDf_rows_length
  rw [hc] at h1
  simp at h1

/-- Counterexample for C4: on a 10,001-row batch against a table with
no unique identifier, `new_records_count` is the capped 10,000, not
the input row count the claim states. -/
theorem filter_duplicates_no_identifier_cex :
    (filterDuplicates emptyMetaEnv "dbo" "t" bigDf).newRecordsCount ≠
      bigDf.rows.length := by
  have hbest : getBestUniqueIdentifier emptyMetaEnv "dbo" "t" = none := rfl
  have hres := filterDuplicates_noident emptyMetaEnv "dbo" "t" bigDf
    bigDf_rows_ne_nil (by decide) hbest
  rw [hres]
  show (bigDf.rows.take maxRecordsForFiltering).length ≠ bigDf.rows.length
  rw [List.length_take, bigDf_rows_length]
  decide

/-- C4 (amended): a non-empty batch within the 10,000-row cap, against
a table with no primary key, no unique constraint and no unique index:
the resolver returns no identifier and the filter succeeds, marking
every row new, with a warning and no error.  (Beyond the cap the
counts refer to the first 10,000 rows only, per the counterexample.) -/
theorem filter_duplicates_no_identifier (env : DbEnv) (s t : String)
    (df : DataFrame)
    (hrows : df.rows ≠ []) (hcols : df.columns ≠ [])
    (hcap : df.rows.length ≤ maxRecordsForFiltering)
    (hpk : (env.meta s t).primaryKeys = [])
    (huc : (env.meta s t).uniqueConstraints = [])
    (hui : (env.meta s t).uniqueIndexes = []) :
    getBestUniqueIdentifier env s t = none ∧
    (filterDuplicates env s t df).success = true ∧
    (filterDuplicates env s t df).newRecordsCount = df.rows.length ∧
    (filterDuplicates env s t df).duplicateCount = 0 ∧
    (filterDuplicates env s t df).filteredData = some df ∧
    (filterDuplicates env s t df).warnings = [noIdentifierMsg s t] ∧
    (filterDuplicates env s t df).errors = [] := by
  have hbest : getBestUniqueIdentifier env s t = none := by
    simp [getBestUniqueIdentifier, getAllUniqueIdentifiers, hpk, huc, hui, sortPrAsc]
  have hres := filterDuplicates_noident env s t df hrows hcols hbest
  rw [List.take_of_length_le hcap] at hres
  rw [hres]
  exact ⟨hbest, rfl, rfl, rfl, rfl, rfl, rfl⟩

/-- Witness for C4 (amended): a one-row batch against an
identifier-less table. -/
theorem filter_duplicates_no_identifier_witness :
    getBestUniqueIdentifier emptyMetaEnv "dbo" "t" = none ∧
    (filterDuplicates emptyMetaEnv "dbo" "t" ⟨["k"], [[.vInt 1]]⟩).success = true ∧
    (filterDuplicates emptyMetaEnv "dbo" "t"
      ⟨["k"], [[.vInt 1]]⟩).newRecordsCount =
      (⟨["k"], [[.vInt 1]]⟩ : DataFrame).rows.length ∧
    (filterDuplicates emptyMetaEnv "dbo" "t" ⟨["k"], [[.vInt 1]]⟩).duplicateCount = 0 ∧
    (filterDuplicates emptyMetaEnv "dbo" "t" ⟨["k"], [[.vInt 1]]⟩).filteredData =
      some ⟨["k"], [[.vInt 1]]⟩ ∧
    (filterDuplicates emptyMetaEnv "dbo" "t" ⟨["k"], [[.vInt 1]]⟩).warnings =
      [noIdentifierMsg "dbo" "t"] ∧
    (filterDuplicates emptyMetaEnv "dbo" "t" ⟨["k"], [[.vInt 1]]⟩).errors = [] :=
  filter_duplicates_no_identifier emptyMetaEnv "dbo" "t" ⟨["k"], [[.vInt 1]]⟩
    (by decide) (by decide) (by decide) rfl rfl rfl

/-- C5: a non-empty batch, a resolved identifier, and at least one key
column absent from the batch's columns: the filter fails with
`filtered_data = None`, zero new records, and the error message naming
exactly the missing columns. -/
theorem filter_duplicates_missing_key_columns (env : DbEnv) (s t : String)
    (df : DataFrame) (ident : UniqueIdentifier)
    (hrows : df.rows ≠ []) (hcols : df.columns ≠ [])
    (hbest : getBestUniqueIdentifier env s t = some ident)
    (hmiss : ∃ c ∈ ident.columns, c ∉ df.columns) :
    (filterDuplicates env s t df).success = false ∧
    (filterDuplicates env s t df).filteredData = none ∧
    (filterDuplicates env s t df).newRecordsCount = 0 ∧
    (filterDuplicates env s t df).errors =
      [missingColumnsMsg
        (ident.columns.filter (fun c => !(df.columns.contains c)))] := by
  have hm : ident.columns.filter (fun c => !(df.columns.contains c)) ≠ [] := by
    obtain ⟨c, hc, hcn⟩ := hmiss
    exact List.ne_nil_of_mem (List.mem_filter.mpr ⟨hc, by simpa using hcn⟩)
  have hres := filterDuplicates_missing env s t df ident hrows hcols hbest hm
  rw [hres]
  exact ⟨rfl, rfl, rfl, rfl⟩

/-- A catalog with a single-column primary key `K` on every table. -/
def pkEnv : DbEnv := ⟨fun _ _ => ⟨["K"], [], []⟩, fun _ _ _ => false⟩

/-- Witness for C5: a batch with column `a` against a table keyed on
`K`. -/
theorem filter_duplicates_missing_key_columns_witness :
    (filterDuplicates pkEnv "dbo" "t" ⟨["a"], [[.vInt 1]]⟩).success = false ∧
    (filterDuplicates pkEnv "dbo" "t" ⟨["a"], [[.vInt 1]]⟩).filteredData = none ∧
    (filterDuplicates pkEnv "dbo" "t" ⟨["a"], [[.vInt 1]]⟩).newRecordsCount = 0 ∧
    (filterDuplicates pkEnv "dbo" "t" ⟨["a"], [[.vInt 1]]⟩).errors =
      [missingColumnsMsg
        ((⟨"PRIMARY_KEY", "PRIMARY_KEY", ["K"], 1⟩ :
          UniqueIdentifier).columns.filter
          (fun c => !((⟨["a"], [[.vInt 1]]⟩ : DataFrame).columns.contains c)))] :=
  filter_duplicates_missing_key_columns pkEnv "dbo" "t" ⟨["a"], [[.vInt 1]]⟩
    ⟨"PRIMARY_KEY", "PRIMARY_KEY", ["K"], 1⟩ (by decide) (by decide) rfl
    (by decide)

/-- Counterexample for C6: on a 10,001-row batch the returned result
carries only the no-identifier warning; the truncation warning text
the code builds is logged, never returned. -/
theorem filter_duplicates_truncation_warning_cex :
    (filterDuplicates emptyMetaEnv "dbo" "t" bigDf).warnings =
      [noIdentifierMsg "dbo" "t"] ∧
    truncationWarningMsg 10001 ∉
      (filterDuplicates emptyMetaEnv "dbo" "t" bigDf).warnings := by
  have hres := filterDuplicates_noident emptyMetaEnv "dbo" "t" bigDf
    bigDf_rows_ne_nil (by decide) rfl
  rw [hres]
  refine ⟨rfl, ?_⟩
  simp only [List.mem_singleton]
  decide

/-- C6 (amended): a batch beyond the 10,000-row cap is processed
exactly as its first 10,000 rows (rows beyond the cap are excluded
from filtering altogether); the result carries no truncation warning —
the message is only logged (see the counterexample). -/
theorem filter_duplicates_truncation (env : DbEnv) (s t : String)
    (df : DataFrame) (hcols : df.columns ≠ [])
    (hlen : maxRecordsForFiltering < df.rows.length) :
    filterDuplicates env s t df =
      filterDuplicates env s t ⟨df.columns, df.rows.take maxRecordsForFiltering⟩ := by
  obtain ⟨cols, rows⟩ := df
  simp only at hcols hlen
  have hr : rows ≠ [] := by
    intro hc
    rw [hc] at hlen
    simp [maxRecordsForFiltering] at hlen
  have ht : (rows.take maxRecordsForFiltering).length = maxRecordsForFiltering := by
    rw [List.length_take]
    omega
  have htne : rows.take maxRecordsForFiltering ≠ [] := by
    intro hc
    rw [hc] at ht
    simp [maxRecordsForFiltering] at ht
  simp only [filterDuplicates]
  rw [if_neg (show ¬((rows.isEmpty || cols.isEmpty) = true) by
    simp [Bool.or_eq_true, List.isEmpty_iff, hr, hcols])]
  rw [if_neg (show
    ¬(((rows.take maxRecordsForFiltering).isEmpty || cols.isEmpty) = true) by
    simp [Bool.or_eq_true, List.isEmpty_iff, htne, hcols])]
  rw [if_pos hlen]
  rw [if_neg (show
    ¬(maxRecordsForFiltering < (rows.take maxRecordsForFiltering).length) by
    rw [ht]
    omega)]

/-- Witness for C6 (amended): the 10,001-row batch filters identically
to its first 10,000 rows. -/
theorem filter_duplicates_truncation_witness :
    filterDuplicates emptyMetaEnv "dbo" "t" bigDf =
      filterDuplicates emptyMetaEnv "dbo" "t"
        ⟨bigDf.columns, bigDf.rows.take maxRecordsForFiltering⟩ :=
  filter_duplicates_truncation emptyMetaEnv "dbo" "t" bigDf (by decide)
    (by rw [show bigDf.rows = List.replicate 10001 [CellVal.vNull] from rfl,
          List.length_replicate]
        decide)

theorem foldlMax_mem (m0 : ScoredMatch) (rest : List ScoredMatch) :
    rest.foldl (fun b x => if x.score > b.score then x else b) m0 ∈ m0 :: rest := by
  induction rest generalizing m0 with
  | nil => exact List.mem_singleton.mpr rfl
  | cons a r ih =>
    simp only [List.foldl_cons]
    by_cases h : a.score > m0.score
    · rw [if_pos h]
      exact List.mem_cons_of_mem m0 (ih a)
    · rw [if_neg h]
      rcases List.mem_cons.mp (ih m0) with h' | h'
      · rw [h']
        exact List.mem_cons_self m0 (a :: r)
      · exact List.mem_cons_of_mem m0 (List.mem_cons_of_mem a h')

theorem foldlMax_ge (m0 : ScoredMatch) (rest : List ScoredMatch) :
    ∀ x ∈ m0 :: rest,
      x.score ≤ (rest.foldl (fun b x => if x.score > b.score then x else b) m0).score := by
  induction rest generalizing m0 with
  | nil =>
    intro x hx
    rw [List.mem_singleton.mp hx]
    exact le_rfl
  | cons a r ih =>
    intro x hx
    simp only [List.foldl_cons]
    rcases List.mem_cons.mp hx with h1 | h1
    · by_cases h : a.score > m0.score
      · rw [if_pos h]
        calc x.score = m0.score := by rw [h1]
          _ ≤ a.score := le_of_lt h
          _ ≤ _ := ih a a (List.mem_cons_self a r)
      · rw [if_neg h]
        calc x.score = m0.score := by rw [h1]
          _ ≤ _ := ih m0 m0 (List.mem_cons_self m0 r)
    · rcases List.mem_cons.mp h1 with h2 | h2
      · by_cases h : a.score > m0.score
        · rw [if_pos h]
          calc x.score = a.score := by rw [h2]
            _ ≤ _ := ih a a (List.mem_cons_self a r)
        · rw [if_neg h]
          calc x.score = a.score := by rw [h2]
            _ ≤ m0.score := le_of_not_lt h
            _ ≤ _ := ih m0 m0 (List.mem_cons_self m0 r)
      · by_cases h : a.score > m0.score
        · rw [if_pos h]
          exact ih a x (List.mem_cons_of_mem a h2)
        · rw [if_neg h]
          exact ih m0 x (List.mem_cons_of_mem m0 h2)

theorem scoreCandidate_some {F : FuzzScorer} {ne c : String} {x : ScoredMatch}
    (h : scoreCandidate F ne c = some x) :
    x.sqlColumn = c ∧ 70 ≤ x.score ∧ x.score ≤ 100 := by
  simp only [scoreCandidate] at h
  split at h
  · obtain rfl := Option.some.inj h
    refine ⟨rfl, by assumption, min_le_left _ _⟩
  · exact absurd h (by simp)

theorem findBest_some_fields {F : FuzzScorer} {excelCol : String}
    {sqlCols : List String} {tbl : List SqlColumnInfo} {used : List String}
    {m : MapperMapping}
    (h : findBestColumnMatch F excelCol sqlCols tbl used = some m) :
    ∃ col score, m.sqlColumn = some col ∧ col ∈ sqlCols ∧ col ∉ used ∧
      70 ≤ score ∧ score ≤ 100 ∧ m.confidence = score / 100 ∧
      m.matchType = determineMatchType score := by
  simp only [findBestColumnMatch] at h
  split at h
  · exact absurd h (by simp)
  · split at h
    · exact absurd h (by simp)
    · rename_i m0 rest hcands
      split at h
      · exact absurd h (by simp)
      · rename_i info hinfo
        obtain rfl := Option.some.inj h
        set best := rest.foldl (fun b x => if x.score > b.score then x else b) m0
          with hbestdef
        have hbest : best ∈ m0 :: rest := foldlMax_mem m0 rest
        rw [← hcands] at hbest
        obtain ⟨c, hcav, hsc⟩ := List.mem_filterMap.mp hbest
        obtain ⟨hcol, h70, h100⟩ := scoreCandidate_some hsc
        have hcav' := List.mem_filter.mp hcav
        refine ⟨best.sqlColumn, best.score, rfl, ?_, ?_, h70, h100, rfl, rfl⟩
        · rw [hcol]
          exact hcav'.1
        · rw [hcol]
          simpa using hcav'.2

theorem bonusLoop_nonneg (e s : String) (ps : List (List String)) (b : ℚ)
    (hb : 0 ≤ b) : 0 ≤ bonusLoop e s ps b := by
  induction ps generalizing b with
  | nil => exact hb
  | cons p r ih =>
    simp only [bonusLoop]
    split
    · linarith
    · split
      · exact ih _ (by linarith)
      · exact ih _ hb

theorem patternBonus_nonneg (e s : String) : 0 ≤ patternBonus e s := by
  have h0 := bonusLoop_nonneg e s commonPatterns 0 le_rfl
  simp only [patternBonus]
  split_ifs with h1 h2
  · exact le_min (by norm_num) (by linarith)
  · exact le_min (by norm_num) (by linarith)
  · exact le_min (by norm_num) h0

theorem scoreCandidate_refl (F : FuzzScorer) (c : String)
    (hrefl : ∀ s, F.fullRatioScore s s = 100 ∧ F.partRatioScore s s = 100 ∧
      F.tokenSortScore s s = 100 ∧ F.tokenSetScore s s = 100) :
    ∃ x, scoreCandidate F (normalizeColumnName c) c = some x ∧ x.score = 100 ∧
      x.sqlColumn = c := by
  obtain ⟨h1, h2, h3, h4⟩ := hrefl (normalizeColumnName c)
  have hpb := patternBonus_nonneg (normalizeColumnName c) (normalizeColumnName c)
  have hfs : min 100
      (F.fullRatioScore (normalizeColumnName c) (normalizeColumnName c) * (3 / 10) +
       F.partRatioScore (normalizeColumnName c) (normalizeColumnName c) * (2 / 10) +
       F.tokenSortScore (normalizeColumnName c) (normalizeColumnName c) * (3 / 10) +
       F.tokenSetScore (normalizeColumnName c) (normalizeColumnName c) * (2 / 10) +
       patternBonus (normalizeColumnName c) (normalizeColumnName c)) = 100 := by
    rw [h1, h2, h3, h4]
    rw [min_eq_left (by linarith)]
  simp only [scoreCandidate]
  rw [hfs, if_pos (by norm_num)]
  exact ⟨_, rfl, rfl, rfl⟩

theorem insertConfDesc_perm (x : MapperMapping) (l : List MapperMapping) :
    List.Perm (insertConfDesc x l) (x :: l) := by
  induction l with
  | nil => exact List.Perm.refl _
  | cons y ys ih =>
    simp only [insertConfDesc]
    split
    · exact List.Perm.refl _
    · exact List.Perm.trans (List.Perm.cons y ih) (List.Perm.swap x y ys)

theorem sortConfDesc_perm (l : List MapperMapping) :
    List.Perm (sortConfDesc l) l := by
  induction l with
  | nil => exact List.Perm.refl _
  | cons x xs ih =>
    exact List.Perm.trans (insertConfDesc_perm x (sortConfDesc xs))
      (List.Perm.cons x ih)

theorem suggestLoop_invariant (F : FuzzScorer) (sqlCols : List String)
    (tbl : List SqlColumnInfo) :
    ∀ (ecs used : List String),
      ((suggestLoop F sqlCols tbl ecs used).filterMap
        (fun m => m.sqlColumn)).Nodup ∧
      ∀ c ∈ (suggestLoop F sqlCols tbl ecs used).filterMap
        (fun m => m.sqlColumn), c ∉ used := by
  intro ecs
  induction ecs with
  | nil =>
    intro used
    simp [suggestLoop]
  | cons ec rest ih =>
    intro used
    simp only [suggestLoop]
    cases hf : findBestColumnMatch F ec sqlCols tbl used with
    | none =>
      simp only [List.filterMap_cons, noMatchMapping]
      exact ih used
    | some m =>
      obtain ⟨col, score, hcol, hsql, hcu, -, -, -, -⟩ := findBest_some_fields hf
      simp only [List.filterMap_cons, hcol]
      have hused' := ih (used ++ m.sqlColumn.toList)
      rw [hcol] at hused'
      constructor
      · rw [List.nodup_cons]
        refine ⟨fun hmem => ?_, hused'.1⟩
        have := hused'.2 col hmem
        simp at this
      · intro c hc
        rcases List.mem_cons.mp hc with rfl | hc'
        · exact hcu
        · have := hused'.2 c hc'
          intro hcin
          exact this (List.mem_append_left _ hcin)

/-- C1: in every result set of `suggest_column_mappings`, the non-null
destination columns are pairwise distinct — no destination column is
claimed by two source columns, for any inputs and any similarity
scorer. -/
theorem suggest_column_mappings_unique_destinations (F : FuzzScorer)
    (excelCols sqlCols : List String) (tbl : List SqlColumnInfo) :
    ((suggestColumnMappings F excelCols sqlCols tbl).filterMap
      (fun m => m.sqlColumn)).Nodup := by
  have hperm : List.Perm
      ((suggestColumnMappings F excelCols sqlCols tbl).filterMap
        (fun m => m.sqlColumn))
      ((suggestLoop F sqlCols tbl excelCols []).filterMap
        (fun m => m.sqlColumn)) :=
    (sortConfDesc_perm _).filterMap _
  exact hperm.nodup_iff.mpr (suggestLoop_invariant F sqlCols tbl excelCols []).1

/-- C7: whenever a destination column with the identical spelling of
the spreadsheet column is still unclaimed (the `used_columns` set of
`_find_best_column_match`), the destination columns are covered by the
table structure, and the four similarity metrics are reflexive (score
100 on identical strings, as fuzzywuzzy's are), the produced mapping
has confidence at least 0.85 and match category `exact_match`. -/
theorem identical_name_exact_match (F : FuzzScorer) (excelCol : String)
    (sqlCols : List String) (tbl : List SqlColumnInfo) (used : List String)
    (hrefl : ∀ s, F.fullRatioScore s s = 100 ∧ F.partRatioScore s s = 100 ∧
      F.tokenSortScore s s = 100 ∧ F.tokenSetScore s s = 100)
    (hstruct : ∀ c ∈ sqlCols, (structureLookup tbl c).isSome = true)
    (hc : excelCol ∈ sqlCols) (hu : excelCol ∉ used) :
    ∃ m, findBestColumnMatch F excelCol sqlCols tbl used = some m ∧
      85 / 100 ≤ m.confidence ∧ m.matchType = "exact_match" := by
  obtain ⟨x, hx, hx100, hxcol⟩ := scoreCandidate_refl F excelCol hrefl
  have hav : excelCol ∈ sqlCols.filter (fun c => decide (c ∉ used)) :=
    List.mem_filter.mpr ⟨hc, by simpa using hu⟩
  have hxmem : x ∈ (sqlCols.filter (fun c => decide (c ∉ used))).filterMap
      (scoreCandidate F (normalizeColumnName excelCol)) :=
    List.mem_filterMap.mpr ⟨excelCol, hav, hx⟩
  simp only [findBestColumnMatch]
  rw [if_neg (by
    intro hemp
    rw [List.isEmpty_iff.mp hemp] at hav
    simp at hav)]
  obtain ⟨m0, restc, hcands⟩ :=
    List.exists_cons_of_ne_nil (List.ne_nil_of_mem hxmem)
  simp only [hcands]
  rw [hcands] at hxmem
  have hbestmem0 : (restc.foldl (fun b x => if x.score > b.score then x else b) m0) ∈
      m0 :: restc := foldlMax_mem m0 restc
  have hbestmem : (restc.foldl (fun b x => if x.score > b.score then x else b) m0) ∈
      (sqlCols.filter (fun c => decide (c ∉ used))).filterMap
        (scoreCandidate F (normalizeColumnName excelCol)) := by
    rw [hcands]
    exact hbestmem0
  have hbest100 : (restc.foldl (fun b x => if x.score > b.score then x else b)
      m0).score = 100 := by
    have hge := foldlMax_ge m0 restc x hxmem
    rw [hx100] at hge
    obtain ⟨c, -, hsc⟩ := List.mem_filterMap.mp hbestmem
    have hle := (scoreCandidate_some hsc).2.2
    linarith
  have hbestcol : (restc.foldl (fun b x => if x.score > b.score then x else b)
      m0).sqlColumn ∈ sqlCols := by
    obtain ⟨c, hcav, hsc⟩ := List.mem_filterMap.mp hbestmem
    rw [(scoreCandidate_some hsc).1]
    exact (List.mem_filter.mp hcav).1
  obtain ⟨info, hinfo⟩ := Option.isSome_iff_exists.mp (hstruct _ hbestcol)
  simp only [hinfo]
  refine ⟨_, rfl, ?_, ?_⟩
  · show (85 : ℚ) / 100 ≤ _ / 100
    rw [hbest100]
    norm_num
  · show determineMatchType _ = "exact_match"
    rw [hbest100, determineMatchType, if_pos (by norm_num)]

/-- A reflexive 0/100 scorer instantiating the fuzzywuzzy metrics. -/
def reflScorer : FuzzScorer :=
  ⟨fun a b => if a = b then 100 else 0, fun a b => if a = b then 100 else 0,
   fun a b => if a = b then 100 else 0, fun a b => if a = b then 100 else 0⟩

/-- Witness for C7: the column `id`, present verbatim among the
destination columns. -/
theorem identical_name_exact_match_witness :
    ∃ m, findBestColumnMatch reflScorer "id" ["id"]
        [⟨"id", "int", "YES", none, none, none⟩] [] = some m ∧
      85 / 100 ≤ m.confidence ∧ m.matchType = "exact_match" :=
  identical_name_exact_match reflScorer "id" ["id"]
    [⟨"id", "int", "YES", none, none, none⟩] []
    (fun s => by simp [reflScorer]) (by decide) (by decide) (by decide)

theorem determineMatchType_of_70 (score : ℚ) (h : 70 ≤ score) :
    determineMatchType score = "exact_match" ∨
    determineMatchType score = "fuzzy_match" := by
  rw [determineMatchType]
  by_cases h1 : 85 ≤ score
  · rw [if_pos h1]
    exact Or.inl rfl
  · rw [if_neg h1, if_pos h]
    exact Or.inr rfl

theorem suggestLoop_fields (F : FuzzScorer) (sqlCols : List String)
    (tbl : List SqlColumnInfo) :
    ∀ (ecs used : List String), ∀ m ∈ suggestLoop F sqlCols tbl ecs used,
      (m.matchType = "exact_match" ∨ m.matchType = "fuzzy_match" ∨
        m.matchType = "no_match") ∧
      m.matchType ≠ "low_confidence" ∧
      (m.matchType = "no_match" ↔ m.sqlColumn = none) ∧
      (m.sqlColumn = none ↔ m.confidence = 0) ∧
      (m.sqlColumn ≠ none → 7 / 10 ≤ m.confidence) := by
  intro ecs
  induction ecs with
  | nil =>
    intro used m hm
    simp [suggestLoop] at hm
  | cons ec rest ih =>
    intro used m hm
    simp only [suggestLoop] at hm
    cases hf : findBestColumnMatch F ec sqlCols tbl used with
    | none =>
      rw [hf] at hm
      rcases List.mem_cons.mp hm with rfl | hm'
      · refine ⟨Or.inr (Or.inr rfl), by simp [noMatchMapping],
          iff_of_true rfl rfl, iff_of_true rfl rfl, fun hne => absurd rfl hne⟩
      · exact ih used m hm'
    | some m1 =>
      rw [hf] at hm
      rcases List.mem_cons.mp hm with rfl | hm'
      · obtain ⟨col, score, hcol, -, -, h70, h100, hconf, hmt⟩ :=
          findBest_some_fields hf
        have hconfpos : (0 : ℚ) < m.confidence := by
          rw [hconf]
          linarith
        have hmt2 := determineMatchType_of_70 score h70
        refine ⟨?_, ?_, ?_, ?_, ?_⟩
        · rw [hmt]
          rcases hmt2 with h | h
          · exact Or.inl h
          · exact Or.inr (Or.inl h)
        · rw [hmt]
          rcases hmt2 with h | h <;> rw [h] <;> simp
        · rw [hmt, hcol]
          rcases hmt2 with h | h <;> rw [h] <;>
            exact iff_of_false (by simp) (by simp)
        · rw [hcol]
          exact iff_of_false (by simp) (by linarith)
        · intro hne
          rw [hconf]
          linarith
      · exact ih (used ++ m1.sqlColumn.toList) m hm'

/-- C10: every mapping in a `suggest_column_mappings` result has match
category exact, fuzzy or no-match (never the `low_confidence` value of
the data model); no-match, a null destination column and zero
confidence coincide; and every mapped column carries confidence at
least the fuzzy threshold 0.7. -/
theorem suggest_column_mappings_match_type_invariant (F : FuzzScorer)
    (excelCols sqlCols : List String) (tbl : List SqlColumnInfo) :
    ∀ m ∈ suggestColumnMappings F excelCols sqlCols tbl,
      (m.matchType = "exact_match" ∨ m.matchType = "fuzzy_match" ∨
        m.matchType = "no_match") ∧
      m.matchType ≠ "low_confidence" ∧
      (m.matchType = "no_match" ↔ m.sqlColumn = none) ∧
      (m.sqlColumn = none ↔ m.confidence = 0) ∧
      (m.sqlColumn ≠ none → 7 / 10 ≤ m.confidence) := by
  intro m hm
  exact suggestLoop_fields F sqlCols tbl excelCols [] m
    ((sortConfDesc_perm _).mem_iff.mp hm)

/-- A scorer answering 0 everywhere. -/
def zeroScorer : FuzzScorer :=
  ⟨fun _ _ => 0, fun _ _ => 0, fun _ _ => 0, fun _ _ => 0⟩

/-- Witness for C10: the single no-match mapping produced for column
`a` when no destination column exists. -/
theorem suggest_column_mappings_match_type_invariant_witness :
    ((noMatchMapping "a" []).matchType = "exact_match" ∨
      (noMatchMapping "a" []).matchType = "fuzzy_match" ∨
      (noMatchMapping "a" []).matchType = "no_match") ∧
    (noMatchMapping "a" []).matchType ≠ "low_confidence" ∧
    ((noMatchMapping "a" []).matchType = "no_match" ↔
      (noMatchMapping "a" []).sqlColumn = none) ∧
    ((noMatchMapping "a" []).sqlColumn = none ↔
      (noMatchMapping "a" []).confidence = 0) ∧
    ((noMatchMapping "a" []).sqlColumn ≠ none →
      7 / 10 ≤ (noMatchMapping "a" []).confidence) :=
  suggest_column_mappings_match_type_invariant zeroScorer ["a"] [] []
    (noMatchMapping "a" []) (by
      rw [show suggestColumnMappings zeroScorer ["a"] [] [] =
        [noMatchMapping "a" []] from rfl]
      exact List.mem_singleton.mpr rfl)

end Recaudo
